import Mathlib

/-
Verification of the autosupport text-extraction core.

The Python source (class AutosupportParser) is shallowly embedded here:
  * text is a list of characters (abbrev Str);
  * Python dictionaries are association lists with replace-or-append
    assignment (ainsert) and first-match lookup (alookup), so that
    key-absence is observable, exactly as for a Python dict;
  * every regular expression of the source is transcribed either into an
    explicit data value for a small backtracking regex engine (section
    patterns, re.search / re.findall) or into a direct string scan whose
    equivalence with the regex is noted in a comment (line-anchored field
    extraction, service-status phrase predicates);
  * fallible steps return Option.

Each definition carries a comment quoting the Python construct it embeds.
-/

abbrev Str := List Char

def chars (s : String) : Str := s.data

/-- ASCII model of the whitespace class used by Python s patterns and
str.strip / str.split. -/
def isWS (c : Char) : Bool :=
  c == ' ' || c == '\t' || c == '\n' || c == '\r' || c == '\x0b' || c == '\x0c'

def lowerChar (c : Char) : Char :=
  if 'A' ≤ c ∧ c ≤ 'Z' then Char.ofNat (c.toNat + 32) else c

/-- str.lower() restricted to ASCII letters; used to model re.IGNORECASE
matching of ASCII-literal patterns. -/
def lower (s : Str) : Str := s.map lowerChar

/-- str.strip() with the ASCII whitespace model. -/
def trim (s : Str) : Str := ((s.dropWhile isWS).reverse.dropWhile isWS).reverse

/-- value.rstrip(c) for a single character c. -/
def rstripChar (c : Char) (s : Str) : Str :=
  (s.reverse.dropWhile (fun x => x == c)).reverse

/-- If pat is a prefix of s, the remainder of s after pat. -/
def dropPre : Str → Str → Option Str
  | [], s => some s
  | _ :: _, [] => none
  | p :: ps, c :: cs => if c = p then dropPre ps cs else none

/-- Python "pat in s" substring test. -/
def containsStr : Str → Str → Bool
  | [], pat => pat.isPrefixOf ([] : Str)
  | c :: t, pat => pat.isPrefixOf (c :: t) || containsStr t pat

/-- Python "c in s" for a single character. -/
def containsChar (s : Str) (c : Char) : Bool := s.any (fun x => x == c)

/-- Python s.find(pat) restricted to the found case: index of the first
occurrence of pat in s. -/
def indexOfSub : Str → Str → Option Nat
  | [], pat => if pat.isPrefixOf ([] : Str) then some 0 else none
  | c :: t, pat =>
    if pat.isPrefixOf (c :: t) then some 0
    else (indexOfSub t pat).map (· + 1)

/-- Python s.split(c) for a one-character separator: keeps empty pieces,
and the empty string splits to one empty piece. -/
def splitOnChar (c : Char) : Str → List Str
  | [] => [[]]
  | x :: r =>
    if x = c then [] :: splitOnChar c r
    else
      match splitOnChar c r with
      | [] => [[x]]
      | t :: ts => (x :: t) :: ts

/-- Python s.split() with no argument: split on whitespace runs, no empty
tokens. -/
def splitWsGo : Str → Str → List Str
  | [], tok => if tok.isEmpty then [] else [tok.reverse]
  | c :: r, tok =>
    if isWS c then
      if tok.isEmpty then splitWsGo r [] else tok.reverse :: splitWsGo r []
    else splitWsGo r (c :: tok)

def splitWs (s : Str) : List Str := splitWsGo s []

/-- re.split of two-or-more whitespace characters: a maximal whitespace run
of length at least 2 separates tokens, a single whitespace character stays
inside its token (and a leading or trailing long run produces an empty
piece, as re.split does). tok and pend are kept reversed. -/
def split2wsGo : Str → Str → Str → List Str
  | [], tok, pend =>
    if 2 ≤ pend.length then [tok.reverse, []] else [(pend ++ tok).reverse]
  | c :: rest, tok, pend =>
    if isWS c then split2wsGo rest tok (c :: pend)
    else if 2 ≤ pend.length then tok.reverse :: split2wsGo rest [c] []
    else split2wsGo rest (c :: (pend ++ tok)) []

def split2ws (s : Str) : List Str := split2wsGo s [] []

/-- Python s.split(sep) for a non-empty multi-character separator:
non-overlapping leftmost occurrences. -/
def splitOnSubGo : Nat → Str → Str → List Str
  | 0, _, s => [s]
  | f + 1, pat, s =>
    match indexOfSub s pat with
    | none => [s]
    | some i => s.take i :: splitOnSubGo f pat (s.drop (i + pat.length))

def splitOnSub (pat s : Str) : List Str := splitOnSubGo (s.length + 1) pat s

/-- Python line.split(sep, 1)[1] when sep is a single colon: everything after
the first colon (callers guarantee the colon is present). -/
def afterColon (s : Str) : Str := (s.dropWhile (fun c => ¬ (c = ':'))).drop 1

/-- values[i] if len(values) greater than i else the N/A sentinel. -/
def vget (vs : List Str) (i : Nat) : Str := ((vs.get? i).getD (chars r"N/A"))

def joinSp : List Str → Str
  | [] => []
  | [x] => x
  | x :: y :: r => x ++ ' ' :: joinSp (y :: r)

def joinNl : List Str → Str
  | [] => []
  | [x] => x
  | x :: y :: r => x ++ '\n' :: joinNl (y :: r)

/-- Remainder after the first occurrence of pat in s, if any. -/
def skipPast : Str → Str → Option Str
  | [], pat => dropPre pat []
  | c :: t, pat =>
    match dropPre pat (c :: t) with
    | some r => some r
    | none => skipPast t pat

/-- Existence of a match of the pattern p1.*p2.*...*pn inside one line
(the dot does not cross newlines, so each such regex alternative matches
inside a single line; for a chain of literals separated by greedy gaps,
taking the earliest occurrence of each literal in turn is complete). -/
def matchSeq : Str → List Str → Bool
  | _, [] => true
  | s, p :: ps =>
    match skipPast s p with
    | some r => matchSeq r ps
    | none => false

/-- Existence of a match of p then one-or-more whitespace then q starting at
the head of s.  q begins with a non-whitespace character in every use, so
the whitespace consumed is exactly the maximal run after p. -/
def pWsQAt (s p q : Str) : Bool :=
  match dropPre p s with
  | some rest =>
    let w := rest.takeWhile isWS
    (¬ w.isEmpty) && q.isPrefixOf (rest.drop w.length)
  | none => false

/-- re.search of the pattern p one-or-more-whitespace q, e.g. the
replication predicate Enabled-colon whitespace yes. -/
def pWsQ : Str → Str → Str → Bool
  | [], p, q => pWsQAt [] p q
  | c :: t, p, q => pWsQAt (c :: t) p q || pWsQ t p q

/- ------------------------------------------------------------------ -/
/- A small backtracking regex engine.  Only the constructs appearing in
the source patterns are supported.  Alternation prefers the left branch,
greedy stars try the longest repetition first, lazy stars the shortest,
exactly as the Python engine does; a star iteration must consume input
(all repeated bodies in the source patterns consume at least one
character, so this agrees with Python).  The fuel argument bounds the
recursion depth of one backtracking branch and is chosen far above the
depth any of the transcribed patterns can need on a given input. -/

inductive RE where
  | eps : RE
  | lit : Char → RE
  | cls : (Char → Bool) → RE
  | seq : RE → RE → RE
  | alt : RE → RE → RE
  | starG : RE → RE
  | starL : RE → RE
  | grp : Nat → RE → RE
  | look : RE → RE
  | eosZ : RE
  | eol : RE
  | eolM : RE

abbrev Caps := List (Nat × Str)

def capGet : Caps → Nat → Option Str
  | [], _ => none
  | (m, v) :: r, n => if m = n then some v else capGet r n

def mre : Nat → RE → Str → Caps → (Str → Caps → Option (Str × Caps)) →
    Option (Str × Caps)
  | 0, _, _, _, _ => none
  | f + 1, r, s, caps, k =>
    match r with
    | .eps => k s caps
    | .lit c =>
      match s with
      | [] => none
      | x :: rest => if x = c then k rest caps else none
    | .cls p =>
      match s with
      | [] => none
      | x :: rest => if p x then k rest caps else none
    | .seq a b => mre f a s caps (fun s1 c1 => mre f b s1 c1 k)
    | .alt a b =>
      match mre f a s caps k with
      | some res => some res
      | none => mre f b s caps k
    | .starG a =>
      match mre f a s caps (fun s1 c1 =>
          if s1.length < s.length then mre f (.starG a) s1 c1 k else none) with
      | some res => some res
      | none => k s caps
    | .starL a =>
      match k s caps with
      | some res => some res
      | none => mre f a s caps (fun s1 c1 =>
          if s1.length < s.length then mre f (.starL a) s1 c1 k else none)
    | .grp n a =>
      mre f a s caps (fun s1 c1 =>
        k s1 ((n, s.take (s.length - s1.length)) :: c1))
    | .look a =>
      match mre f a s caps (fun s1 c1 => some (s1, c1)) with
      | some _ => k s caps
      | none => none
    | .eosZ => if s.isEmpty then k s caps else none
    | .eol => if s.isEmpty || s == ['\n'] then k s caps else none
    | .eolM =>
      match s with
      | [] => k [] caps
      | c :: t => if c = '\n' then k (c :: t) caps else none

def fuelFor (s : Str) : Nat := 16 * s.length + 800

/-- re.search: try a match at each start position from the left; returns the
remaining input after the leftmost match together with its captures. -/
def reSearchCore (r : RE) : Str → Option (Str × Caps)
  | [] => mre (fuelFor []) r [] [] (fun rest caps => some (rest, caps))
  | c :: t =>
    match mre (fuelFor (c :: t)) r (c :: t) [] (fun rest caps => some (rest, caps)) with
    | some rc => some rc
    | none => reSearchCore r t

def reSearch (r : RE) (s : Str) : Option Caps := (reSearchCore r s).map (·.2)

/-- re.findall: leftmost non-overlapping matches, each search resuming at
the end of the previous match (every transcribed findall pattern consumes
at least one character). -/
def reFindallGo : Nat → RE → Str → List Caps
  | 0, _, _ => []
  | f + 1, r, s =>
    match reSearchCore r s with
    | none => []
    | some (rest, caps) =>
      caps ::
        (if rest.length < s.length then reFindallGo f r rest
         else
           match rest with
           | [] => []
           | _ :: t => reFindallGo f r t)

def reFindall (r : RE) (s : Str) : List Caps := reFindallGo (s.length + 1) r s

/- Pattern-building helpers. -/

def reStr : Str → RE
  | [] => .eps
  | c :: r => .seq (.lit c) (reStr r)

def reCat : List RE → RE
  | [] => .eps
  | r :: rs => .seq r (reCat rs)

def reLit (s : String) : RE := reStr (chars s)

def wsC : RE := .cls isWS
/-- the regex piece of zero-or-more whitespace -/
def wsS : RE := .starG wsC
/-- the regex piece of one-or-more whitespace -/
def wsP : RE := .seq wsC wsS
/-- dot under DOTALL: any character -/
def dotA : RE := .cls (fun _ => true)
/-- the class of every character except a newline -/
def nonNl : RE := .cls (fun c => ¬ (c = '\n'))
/-- the class of every non-whitespace character -/
def nonWsC : RE := .cls (fun c => ¬ isWS c)
def digitC : RE := .cls (fun c => '0' ≤ c ∧ c ≤ '9')
/-- a run of at least n dashes, greedy -/
def dashRun (n : Nat) : RE :=
  reCat (List.replicate n (RE.lit '-') ++ [RE.starG (RE.lit '-')])
/-- one or more dashes, greedy -/
def dashP : RE := .seq (.lit '-') (.starG (.lit '-'))
/-- lazy dot-star under DOTALL -/
def lazyA : RE := .starL dotA

/- ------------------------------------------------------------------ -/
/- Transcriptions of the section regexes of parse_storage_tables and its
helpers.  Each definition quotes its Python pattern; all of these are
applied by re.search / re.findall with re.DOTALL (dot matches newline),
and with re.MULTILINE where noted (which only changes the dollar
anchor). -/

/- Active Tier: ws* nl Resource lazy nl (lazy) lookahead of
   ( nl ws* star space | nl ws* Cloud Tier | end-of-text ). -/
def pActiveUsage : RE :=
  reCat [reLit "Active Tier:", wsS, .lit '\n', reLit "Resource", lazyA, .lit '\n',
    .grp 1 lazyA,
    .look (.alt (reCat [.lit '\n', wsS, .lit '*', .lit ' '])
      (.alt (reCat [.lit '\n', wsS, reLit "Cloud Tier"]) .eosZ))]

/- Cloud Tier ws* nl Resource lazy nl (lazy) lookahead of
   ( nl ws* star space | nl ws* Total: | end-of-text ). -/
def pCloudUsage : RE :=
  reCat [reLit "Cloud Tier", wsS, .lit '\n', reLit "Resource", lazyA, .lit '\n',
    .grp 1 lazyA,
    .look (.alt (reCat [.lit '\n', wsS, .lit '*', .lit ' '])
      (.alt (reCat [.lit '\n', wsS, reLit "Total:"]) .eosZ))]

/- Total: ws* nl Resource lazy nl (lazy) lookahead of
   ( nl ws* star space | end-of-text ). -/
def pTotalUsage : RE :=
  reCat [reLit "Total:", wsS, .lit '\n', reLit "Resource", lazyA, .lit '\n',
    .grp 1 lazyA,
    .look (.alt (reCat [.lit '\n', wsS, .lit '*', .lit ' ']) .eosZ)]

/- Active Tier: ws* nl ws* Pre-Comp lazy Total-Comp lazy nl lazy nl (lazy)
   lookahead of ( nl ws* star lazy cleaning | nl ws* Cloud Tier: ). -/
def pActiveComp : RE :=
  reCat [reLit "Active Tier:", wsS, .lit '\n', wsS, reLit "Pre-Comp", lazyA,
    reLit "Total-Comp", lazyA, .lit '\n', lazyA, .lit '\n',
    .grp 1 lazyA,
    .look (.alt (reCat [.lit '\n', wsS, .lit '*', lazyA, reLit "cleaning"])
      (reCat [.lit '\n', wsS, reLit "Cloud Tier:"]))]

/- Filesys Compression lazy Cloud Tier: ws* nl lazy dashes10 ws* nl (lazy)
   lookahead of ( nl ws* star-space Does not include ). -/
def pCloudComp : RE :=
  reCat [reLit "Filesys Compression", lazyA, reLit "Cloud Tier:", wsS, .lit '\n',
    lazyA, dashRun 10, wsS, .lit '\n',
    .grp 1 lazyA,
    .look (reCat [.lit '\n', wsS, reLit "* Does not include"])]

/- Currently Used:star ws* nl ws* Pre-Comp lazy Total-Comp lazy nl lazy nl
   (lazy) lookahead of ( nl ws* Key: ). -/
def pUsedComp : RE :=
  reCat [reLit "Currently Used:*", wsS, .lit '\n', wsS, reLit "Pre-Comp", lazyA,
    reLit "Total-Comp", lazyA, .lit '\n', lazyA, .lit '\n',
    .grp 1 lazyA,
    .look (reCat [.lit '\n', wsS, reLit "Key:"])]

/- Mtree Show Compression nonNl* nl (nonNl* nl)lazy Active Tier: nonNl* nl
   dashes10 nonNl* nl (non-dash lazy) then dashes10 or Cloud Tier: . -/
def pMtreeActive : RE :=
  reCat [reLit "Mtree Show Compression", .starG nonNl, .lit '\n',
    .starL (reCat [.starG nonNl, .lit '\n']),
    reLit "Active Tier:", .starG nonNl, .lit '\n',
    dashRun 10, .starG nonNl, .lit '\n',
    .grp 1 (.starL (.cls (fun c => ¬ (c = '-')))),
    .alt (dashRun 10) (reLit "Cloud Tier:")]

/- As above with Cloud Tier: and terminator dashes10 or Key: . -/
def pMtreeCloud : RE :=
  reCat [reLit "Mtree Show Compression", .starG nonNl, .lit '\n',
    .starL (reCat [.starG nonNl, .lit '\n']),
    reLit "Cloud Tier:", .starG nonNl, .lit '\n',
    dashRun 10, .starG nonNl, .lit '\n',
    .grp 1 (.starL (.cls (fun c => ¬ (c = '-')))),
    .alt (dashRun 10) (reLit "Key:")]

/- Mtree List ws* nl dashes5 ws* nl Name nonNl* Pre-Comp nonNl* Status
   nonNl* nl dashes10 nonNl* nl ((slash data col1 slash nonNl* nl)lazy)
   lookahead of ( dashes10 | nl Mtree Options | end-of-text ). -/
def pMtreeList : RE :=
  reCat [reLit "Mtree List", wsS, .lit '\n', dashRun 5, wsS, .lit '\n',
    reLit "Name", .starG nonNl, reLit "Pre-Comp", .starG nonNl,
    reLit "Status", .starG nonNl, .lit '\n',
    dashRun 10, .starG nonNl, .lit '\n',
    .grp 1 (.starL (reCat [reLit "/data/col1/", .starG nonNl, .lit '\n'])),
    .look (.alt (dashRun 10) (.alt (reCat [.lit '\n', reLit "Mtree Options"]) .eosZ))]

/- Retention-lock sections, found with findall under DOTALL and MULTILINE
   (so the dollar in the final lookahead matches before any newline):
   Mtree:-space (group1: slash data col1 slash nonWs+) ws* nl ws* Option
   ws+ Value ws* nl dash+ ws+ dash+ ws* nl (group2 lazy) nl dash+ ws+ dash+
   lookahead of ( ws* nl | multiline-dollar ). -/
def pRetLock : RE :=
  reCat [reLit "Mtree: ",
    .grp 1 (reCat [reLit "/data/col1/", nonWsC, .starG nonWsC]),
    wsS, .lit '\n', wsS, reLit "Option", wsP, reLit "Value", wsS, .lit '\n',
    dashP, wsP, dashP, wsS, .lit '\n',
    .grp 2 lazyA, .lit '\n', dashP, wsP, dashP,
    .look (.alt (reCat [wsS, .lit '\n']) .eolM)]

/- Replication contexts, found with findall under DOTALL only (plain
   dollar): CTX: ws+ digit+ ws* nl (group1 lazy) lookahead of
   ( CTX: ws+ digit+ | Replication Options | dollar ). -/
def pCtx : RE :=
  reCat [reLit "CTX:", wsP, .seq digitC (.starG digitC), wsS, .lit '\n',
    .grp 1 lazyA,
    .look (.alt (reCat [reLit "CTX:", wsP, .seq digitC (.starG digitC)])
      (.alt (reLit "Replication Options") .eol))]

/- Cloud Profiles ws* nl dashes10 ws* nl (group1 lazy) lookahead of
   ( nl Cloud Unit List | nl Cloud Data-Movement | dollar ), DOTALL only. -/
def pProfiles : RE :=
  reCat [reLit "Cloud Profiles", wsS, .lit '\n', dashRun 10, wsS, .lit '\n',
    .grp 1 lazyA,
    .look (.alt (reCat [.lit '\n', reLit "Cloud Unit List"])
      (.alt (reCat [.lit '\n', reLit "Cloud Data-Movement"]) .eol))]

/- Cloud Data-Movement Configuration ws* nl dashes30 (group1 lazy)
   lookahead of ( nl Data-movement is scheduled ), DOTALL only. -/
def pMovement : RE :=
  reCat [reLit "Cloud Data-Movement Configuration", wsS, .lit '\n', dashRun 30,
    .grp 1 lazyA,
    .look (reCat [.lit '\n', reLit "Data-movement is scheduled"])]

/- ------------------------------------------------------------------ -/
/- Association lists model Python dictionaries: assignment replaces the
value of an existing key in place, else appends; lookup takes the first
(unique) binding; iteration order is list order, which is insertion
order, as for a Python dict. -/

def alookup {β : Type} : List (Str × β) → Str → Option β
  | [], _ => none
  | (k, v) :: r, key => if key = k then some v else alookup r key

def ainsert {β : Type} (key : Str) (v : β) : List (Str × β) → List (Str × β)
  | [] => [(key, v)]
  | (k, w) :: r => if k = key then (k, v) :: r else (k, w) :: ainsert key v r

/-- One row of a decoded table: a small dictionary from column name to
string value, in insertion order. -/
abbrev Row := List (Str × Str)

def rget (row : Row) (k : Str) : Option Str := alookup row k

/- ------------------------------------------------------------------ -/
/- parse_services_status.  Each service evaluates its regex predicates in
source order.  Literal patterns are substring tests; patterns of literals
separated by dots are per-line ordered-occurrence tests (the dot does not
match a newline there); IGNORECASE is modelled by lowering both sides of
ASCII-literal patterns. -/

/-- NFS: literal enabled phrase, else NFS-dot-disabled or
NFS-dot-not-dot-running (IGNORECASE), else Unknown. -/
def nfsStatus (content : Str) : Str :=
  let lc := lower content
  if containsStr lc (chars r"the nfs system is currently active and running") then
    chars r"Enabled"
  else if (splitOnChar '\n' lc).any (fun l =>
      matchSeq l [chars r"nfs", chars r"disabled"] ||
      matchSeq l [chars r"nfs", chars r"not", chars r"running"]) then
    chars r"Disabled"
  else chars r"Unknown"

/-- CIFS: literal CIFS-is-disabled first, else CIFS-dot-enabled or
CIFS-dot-active (IGNORECASE), else Unknown. -/
def cifsStatus (content : Str) : Str :=
  let lc := lower content
  if containsStr lc (chars r"cifs is disabled") then chars r"Disabled"
  else if (splitOnChar '\n' lc).any (fun l =>
      matchSeq l [chars r"cifs", chars r"enabled"] ||
      matchSeq l [chars r"cifs", chars r"active"]) then
    chars r"Enabled"
  else chars r"Unknown"

/-- NDMP: literal admin_state disabled first, else literal admin_state
enabled (IGNORECASE), else Unknown. -/
def ndmpStatus (content : Str) : Str :=
  let lc := lower content
  if containsStr lc (chars r"ndmp daemon admin_state: disabled") then
    chars r"Disabled"
  else if containsStr lc (chars r"ndmp daemon admin_state: enabled") then
    chars r"Enabled"
  else chars r"Unknown"

/-- Cloud tier: CLOUD-TIER-dot-colon (case sensitive, per line) or literal
Cloud Unit:, else cloud-dot-disabled (IGNORECASE), else Unknown. -/
def cloudTierStatus (content : Str) : Str :=
  if (splitOnChar '\n' content).any (fun l =>
        matchSeq l [chars r"CLOUD TIER", chars r":"]) ||
      containsStr content (chars r"Cloud Unit:") then
    chars r"Enabled"
  else if (splitOnChar '\n' (lower content)).any (fun l =>
      matchSeq l [chars r"cloud", chars r"disabled"]) then
    chars r"Disabled"
  else chars r"Unknown"

/-- Replication: Enabled-colon ws+ yes (IGNORECASE), else Enabled-colon ws+
no or replication-dot-disabled (IGNORECASE), else literal Replication
Status (case sensitive), else Unknown. -/
def replicationStatus (content : Str) : Str :=
  let lc := lower content
  if pWsQ lc (chars r"enabled:") (chars r"yes") then chars r"Enabled"
  else if pWsQ lc (chars r"enabled:") (chars r"no") ||
      (splitOnChar '\n' lc).any (fun l =>
        matchSeq l [chars r"replication", chars r"disabled"]) then
    chars r"Disabled"
  else if containsStr content (chars r"Replication Status") then
    chars r"Configured"
  else chars r"Unknown"

/-- parse_services_status: the services_status dict in its insertion
order. -/
def parseServicesStatus (content : Str) : List (Str × Str) :=
  [(chars r"NFS", nfsStatus content),
   (chars r"CIFS", cifsStatus content),
   (chars r"NDMP", ndmpStatus content),
   (chars r"CLOUD_TIER", cloudTierStatus content),
   (chars r"REPLICATION", replicationStatus content)]

/- ------------------------------------------------------------------ -/
/- parse_mtree_retention_locks -/

structure RetInfo where
  retentionLock : Str
  lockMode : Str
  minRet : Str
  maxRet : Str
deriving DecidableEq, Repr

/-- The initial retention_info dict of each section. -/
def retStart : RetInfo :=
  ⟨chars r"disabled", chars r"N/A", chars r"N/A", chars r"N/A"⟩

/-- The per-line update of the options-section loop. -/
def retOptionStep (info : RetInfo) (line : Str) : RetInfo :=
  if trim line = [] then info
  else
    let parts := split2ws (trim line)
    if 2 ≤ parts.length then
      let option := trim (parts.headD [])
      let value := trim ((parts.get? 1).getD [])
      if option = chars r"Retention-lock" then
        if (chars r"enabled").isPrefixOf (lower value) then
          { info with retentionLock := chars r"enabled" }
        else { info with retentionLock := chars r"disabled" }
      else if option = chars r"Retention-lock mode" then
        { info with lockMode := if value = chars r"N/A" then chars r"N/A" else value }
      else if option = chars r"Retention-lock min-retention-period" then
        { info with minRet := value }
      else if option = chars r"Retention-lock max-retention-period" then
        { info with maxRet := value }
      else info
    else info

/-- parse_mtree_retention_locks: findall of the section pattern, then the
option lines of each section folded over retOptionStep. -/
def parseMtreeRetentionLocks (content : Str) : List (Str × RetInfo) :=
  (reFindall pRetLock content).foldl (fun acc caps =>
    let path := (capGet caps 1).getD []
    let opts := (capGet caps 2).getD []
    let info := ((splitOnChar '\n' (trim opts))).foldl retOptionStep retStart
    ainsert path info acc) []

/- ------------------------------------------------------------------ -/
/- parse_mtree_replication_info -/

structure ReplData where
  mode : Str
  connHost : Str
  enabled : Str
deriving DecidableEq, Repr

def replStart : ReplData := ⟨chars r"N/A", chars r"N/A", chars r"N/A"⟩

/-- The per-line update of a CTX section: Mode, Destination (which sets the
mtree path from the substring after the last /data/col1/), Connection Host
(keeping only the part before the first dot when the value contains one),
and Enabled. -/
def replStep (acc : ReplData × Option Str) (rawLine : Str) : ReplData × Option Str :=
  let line := trim rawLine
  let d := acc.1
  let mp := acc.2
  if (chars r"Mode:").isPrefixOf line then
    ({ d with mode := trim (afterColon line) }, mp)
  else if (chars r"Destination:").isPrefixOf line then
    let dest := trim (afterColon line)
    if containsStr dest (chars r"/data/col1/") then
      (d, some (chars r"/data/col1/" ++
        (splitOnSub (chars r"/data/col1/") dest).getLastD []))
    else (d, mp)
  else if (chars r"Connection Host:").isPrefixOf line then
    let host := trim (afterColon line)
    if containsChar host '.' then
      ({ d with connHost := host.takeWhile (fun c => ¬ (c = '.')) }, mp)
    else ({ d with connHost := host }, mp)
  else if (chars r"Enabled:").isPrefixOf line then
    ({ d with enabled := trim (afterColon line) }, mp)
  else (d, mp)

/-- parse_mtree_replication_info: findall of CTX sections; a section
contributes only when a valid mtree path was found. -/
def parseMtreeReplicationInfo (content : Str) : List (Str × ReplData) :=
  (reFindall pCtx content).foldl (fun acc caps =>
    let sec := (capGet caps 1).getD []
    let res := (splitOnChar '\n' (trim sec)).foldl replStep (replStart, none)
    match res.2 with
    | some path => ainsert path res.1 acc
    | none => acc) []

/- ------------------------------------------------------------------ -/
/- parse_storage_tables: the per-line row decoders of the table loop. -/

/-- re.sub removing every star, then str.strip: the clean_line of the
decoders. -/
def cleanLine (line : Str) : Str := trim (line.filter (fun c => ¬ (c = '*')))

/-- split_total_reduction: a value with both parentheses splits at the
first opening parenthesis, the second piece stripped of trailing closing
parentheses; otherwise the value is the total and the percentage is the
sentinel. -/
def splitTotalReduction (v : Str) : Str × Str :=
  if containsChar v '(' && containsChar v ')' then
    let parts := splitOnChar '(' v
    (parts.headD [], rstripChar ')' ((parts.get? 1).getD []))
  else (v, chars r"N/A")

/-- values[i] if values[i] is not a dash else the sentinel. -/
def dashNA (v : Str) : Str := if v = chars r"-" then chars r"N/A" else v

/-- The Mtree List row decoder (lines 669-707): strip stars, split on runs
of two-or-more whitespace, require at least three fields, then join the
retention-lock and replication lookup results (all-sentinel defaults on a
miss) onto the row. -/
def mtreeListDecode (rl : List (Str × RetInfo)) (rep : List (Str × ReplData))
    (line : Str) : Option Row :=
  let clean := cleanLine line
  let parts := split2ws clean
  if 3 ≤ parts.length then
    let name := trim (parts.headD [])
    let pre := trim ((parts.get? 1).getD [])
    let status := trim ((parts.get? 2).getD [])
    let ri := (alookup rl name).getD
      ⟨chars r"N/A", chars r"N/A", chars r"N/A", chars r"N/A"⟩
    let rp := (alookup rep name).getD ⟨chars r"N/A", chars r"N/A", chars r"N/A"⟩
    some [(chars r"Name", name),
      (chars r"Pre_Comp_GiB", pre),
      (chars r"Status", status),
      (chars r"Retention_Lock", ri.retentionLock),
      (chars r"Lock_Mode", ri.lockMode),
      (chars r"Min_Retention_Period", ri.minRet),
      (chars r"Max_Retention_Period", ri.maxRet),
      (chars r"Replication_Mode", rp.mode),
      (chars r"Replication_Host", rp.connHost),
      (chars r"Replication_Enabled", rp.enabled)]
  else none

/-- The anchored re.match of the mtree compression decoder: literal
/data/col1/ then one-or-more non-whitespace (greedy, hence maximal) as the
tail of group 1, then one-or-more whitespace, then group 2 (the dot not
crossing a newline).  If the path is not followed by whitespace and
further text there is no match. -/
def mtreeCompMatch (s : Str) : Option (Str × Str) :=
  match dropPre (chars r"/data/col1/") s with
  | none => none
  | some rest =>
    let t := rest.takeWhile (fun c => ¬ isWS c)
    if t.isEmpty then none
    else
      let r1 := rest.drop t.length
      if r1.isEmpty then none
      else some (chars r"/data/col1/" ++ t,
        (r1.dropWhile isWS).takeWhile (fun c => ¬ (c = '\n')))

/-- The mtree compression row decoder (lines 710-754): strip stars, require
length over 35, match the anchored path pattern, require at least ten
whitespace-separated values, re-sentinel dash cells, and split the two
combined total(percentage) cells. -/
def mtreeCompDecode (line : Str) : Option Row :=
  let clean := cleanLine line
  if 35 < clean.length then
    match mtreeCompMatch clean with
    | some nr =>
      let values := splitWs (trim nr.2)
      if 10 ≤ values.length then
        let s24 := splitTotalReduction (dashNA (vget values 4))
        let s7 := splitTotalReduction (dashNA (vget values 9))
        some [(chars r"Mtree", nr.1),
          (chars r"Pre_24hrs_GiB", dashNA (vget values 0)),
          (chars r"Post_24hrs_GiB", dashNA (vget values 1)),
          (chars r"Global_24hrs", dashNA (vget values 2)),
          (chars r"Local_24hrs", dashNA (vget values 3)),
          (chars r"Total_24hrs", s24.1),
          (chars r"Reduction_24hrs_Percent", s24.2),
          (chars r"Pre_7days_GiB", dashNA (vget values 5)),
          (chars r"Post_7days_GiB", dashNA (vget values 6)),
          (chars r"Global_7days", dashNA (vget values 7)),
          (chars r"Local_7days", dashNA (vget values 8)),
          (chars r"Total_7days", s7.1),
          (chars r"Reduction_7days_Percent", s7.2)]
      else none
    | none => none
  else none

/-- The usage row decoder (lines 757-776): strip stars, fixed-width slice
of the first 18 characters as the resource, the remainder token-split,
requiring at least one token; missing values are the sentinel. -/
def usageDecode (line : Str) : Option Row :=
  let clean := cleanLine line
  if 18 < clean.length then
    let resource := trim (clean.take 18)
    let remainder := trim (clean.drop 18)
    let values := splitWs remainder
    if ¬ values.isEmpty then
      some [(chars r"Resource", resource),
        (chars r"Size_GiB", vget values 0),
        (chars r"Used_GiB", vget values 1),
        (chars r"Avail_GiB", vget values 2),
        (chars r"Use_Percent", vget values 3),
        (chars r"Cleanable_GiB", vget values 4)]
    else none
  else none

/-- The compression row decoder (lines 779-821): a line with a colon or a
known tier phrase, token-split, the metric label recombined when the first
token is one of the known label heads, and at least two remaining
values. -/
def compDecode (line : Str) : Option Row :=
  let clean := cleanLine line
  if containsChar clean ':' ||
      [chars r"Currently Used", chars r"Last 7 days", chars r"Last 24 hrs",
       chars r"Active Tier", chars r"Cloud Tier", chars r"Total",
       chars r"Written"].any (fun t => containsStr clean t) then
    let parts := splitWs clean
    if 2 ≤ parts.length then
      let p0 := parts.headD []
      let mv :=
        if p0 = chars r"Currently" ∨ p0 = chars r"Last" ∨ p0 = chars r"Active" ∨
            p0 = chars r"Cloud" ∨ p0 = chars r"Total" ∨ p0 = chars r"Written:" then
          if p0 = chars r"Currently" ∧ 1 < parts.length ∧
              (parts.get? 1).getD [] = chars r"Used:" then
            (chars r"Currently Used", parts.drop 2)
          else if p0 = chars r"Last" ∧ 2 < parts.length then
            (p0 ++ ' ' :: (parts.get? 1).getD [] ++ ' ' :: (parts.get? 2).getD [],
             parts.drop 3)
          else if p0 = chars r"Active" ∨ p0 = chars r"Cloud" then
            (p0 ++ ' ' :: (parts.get? 1).getD [], parts.drop 2)
          else if p0 = chars r"Total" then (chars r"Total", parts.drop 1)
          else if p0 = chars r"Written:" then (chars r"Written", parts.drop 1)
          else (p0, parts.drop 1)
        else (rstripChar ':' p0, parts.drop 1)
      if 2 ≤ mv.2.length then
        some [(chars r"Metric", mv.1),
          (chars r"Pre_Comp_GiB", vget mv.2 0),
          (chars r"Post_Comp_GiB", vget mv.2 1),
          (chars r"Global_Comp_Factor", vget mv.2 2),
          (chars r"Local_Comp_Factor", vget mv.2 3),
          (chars r"Total_Comp_Factor", vget mv.2 4)]
      else none
    else none
  else none

/-- One iteration of the line loop of parse_storage_tables: separator and
header lines are skipped, then the elif chain selects the decoder from the
table name exactly as the source flags do. -/
def tableLineStep (tableName : Str) (rl : List (Str × RetInfo))
    (rep : List (Str × ReplData)) (line : Str) : Option Row :=
  if containsStr line (chars r"----") || containsStr line (chars r"-----------") ||
      trim line = [] then none
  else if [chars r"Resource", chars r"Size GiB", chars r"Pre-Comp",
      chars r"Post-Comp"].any (fun h => containsStr line h) then none
  else
    let isComp := containsStr tableName (chars r"Compression") ||
      containsStr tableName (chars r"Currently Used")
    let isUsage := containsStr tableName (chars r"Usage")
    let isMtree := containsStr tableName (chars r"Mtree")
    if isMtree && containsStr tableName (chars r"Mtree List") &&
        ¬ (trim line).isEmpty && (chars r"/data/col1/").isPrefixOf (trim line) then
      mtreeListDecode rl rep line
    else if isMtree && ¬ (trim line).isEmpty &&
        (chars r"/data/col1/").isPrefixOf (trim line) then
      mtreeCompDecode line
    else if isUsage && (chars r"/").isPrefixOf (trim line) then
      usageDecode line
    else if isComp && ¬ (trim line).isEmpty &&
        ¬ (chars r"(").isPrefixOf (trim line) &&
        ¬ (chars r"Key:").isPrefixOf (trim line) then
      compDecode line
    else none

/-- The rows of one located table: the line loop only ever appends, so it
is a filterMap of the per-line step. -/
def decodeTableLines (tableName : Str) (rl : List (Str × RetInfo))
    (rep : List (Str × ReplData)) (lines : List Str) : List Row :=
  lines.filterMap (tableLineStep tableName rl rep)

/-- The note scan after a table (lines 826-837): collect leading
star-lines of the 500-character look-ahead window, stopping at the first
non-empty non-star line once some note line was seen. -/
def collectNoteLines : List Str → List Str → List Str
  | [], acc => acc.reverse
  | l :: rest, acc =>
    if (chars r"*").isPrefixOf (trim l) then collectNoteLines rest (trim l :: acc)
    else if ¬ (trim l).isEmpty ∧ ¬ acc.isEmpty then acc.reverse
    else collectNoteLines rest acc

/-- A value of the STORAGE_TABLES dict: a row list for a table name, or a
note string for a name suffixed with _note. -/
inductive TVal where
  | rs : List Row → TVal
  | note : Str → TVal
deriving DecidableEq, Repr

/-- The nine table patterns in the insertion order of the merged pattern
dict (usage, compression, mtree). -/
def tablePatterns : List (Str × RE) :=
  [(chars r"Active Tier Usage", pActiveUsage),
   (chars r"Cloud Tier Usage", pCloudUsage),
   (chars r"Total Usage", pTotalUsage),
   (chars r"Active Tier Compression", pActiveComp),
   (chars r"Cloud Tier Compression", pCloudComp),
   (chars r"Currently Used Summary", pUsedComp),
   (chars r"Mtree Active Tier Compression", pMtreeActive),
   (chars r"Mtree Cloud Tier Compression", pMtreeCloud),
   (chars r"Mtree List", pMtreeList)]

/-- parse_storage_tables: locate each table with its pattern, decode its
lines, and attach the trailing note when present.  The note window starts
at the first occurrence of the captured section text in the content, as
content.find does. -/
def parseStorageTables (content : Str) : List (Str × TVal) :=
  let rl := parseMtreeRetentionLocks content
  let rep := parseMtreeReplicationInfo content
  tablePatterns.foldl (fun sd p =>
    match reSearch p.2 content with
    | none => sd
    | some caps =>
      let sec := (capGet caps 1).getD []
      let rows := decodeTableLines p.1 rl rep (splitOnChar '\n' (trim sec))
      let sd := ainsert p.1 (TVal.rs rows) sd
      let noteStart := (indexOfSub content sec).getD 0 + sec.length
      let noteSection := (content.drop noteStart).take 500
      let noteLines := collectNoteLines (splitOnChar '\n' noteSection) []
      if ¬ noteLines.isEmpty then
        ainsert (p.1 ++ chars r"_note") (TVal.note (joinSp noteLines)) sd
      else sd) []

/- ------------------------------------------------------------------ -/
/- parse_cloud_profiles -/

/-- re.split on the zero-width look-ahead of pat: the string cut before
every occurrence of pat (an occurrence at position zero contributes a
leading empty piece, as re.split does). -/
def cutIdxs (pat s : Str) : List Nat :=
  (List.range s.length).filter (fun i => pat.isPrefixOf (s.drop i))

def slicesGo (s : Str) : List Nat → List Str
  | [] => []
  | [c] => [s.drop c]
  | c :: c2 :: r => ((s.drop c).take (c2 - c)) :: slicesGo s (c2 :: r)

def splitBefore (pat s : Str) : List Str :=
  match cutIdxs pat s with
  | [] => [s]
  | c :: r => s.take c :: slicesGo s (c :: r)

/-- line.split(label)[1].strip() for a keyword-prefixed line. -/
def afterLabel (label : Str) (line : Str) : Str :=
  trim (((splitOnSub label line).get? 1).getD [])

/-- The per-line update of a profile block. -/
def profileLineStep (pd : Row) (rawLine : Str) : Row :=
  let line := trim rawLine
  if line.isEmpty then pd
  else if (chars r"Profile name:").isPrefixOf line then
    ainsert (chars r"Profile_Name") (afterLabel (chars r"Profile name:") line) pd
  else if (chars r"Provider:").isPrefixOf line then
    ainsert (chars r"Provider") (afterLabel (chars r"Provider:") line) pd
  else if (chars r"Endpoint:").isPrefixOf line then
    ainsert (chars r"Endpoint") (afterLabel (chars r"Endpoint:") line) pd
  else if (chars r"Version:").isPrefixOf line then
    ainsert (chars r"Version") (afterLabel (chars r"Version:") line) pd
  else if (chars r"Proxy host:").isPrefixOf line then
    let v := afterLabel (chars r"Proxy host:") line
    ainsert (chars r"Proxy_Host") (if v.isEmpty then chars r"N/A" else v) pd
  else if (chars r"Proxy port:").isPrefixOf line then
    let v := afterLabel (chars r"Proxy port:") line
    ainsert (chars r"Proxy_Port") (if v.isEmpty then chars r"N/A" else v) pd
  else if (chars r"Proxy username:").isPrefixOf line then
    let v := afterLabel (chars r"Proxy username:") line
    ainsert (chars r"Proxy_Username") (if v.isEmpty then chars r"N/A" else v) pd
  else pd

/-- parse_cloud_profiles: locate the section, split it before each Profile
name: occurrence, decode each block line by line, default the optional
fields, and keep blocks having both a profile name and a provider. -/
def parseCloudProfiles (content : Str) : List Row :=
  match reSearch pProfiles content with
  | none => []
  | some caps =>
    let sec := (capGet caps 1).getD []
    (splitBefore (chars r"Profile name:") sec).filterMap (fun block =>
      if trim block = [] || ¬ containsStr block (chars r"Profile name:") then none
      else
        let pd := (splitOnChar '\n' block).foldl profileLineStep []
        let pd := [chars r"Version", chars r"Proxy_Host", chars r"Proxy_Port",
            chars r"Proxy_Username"].foldl (fun pd f =>
          if (alookup pd f).isNone then ainsert f (chars r"N/A") pd else pd) pd
        if (alookup pd (chars r"Profile_Name")).isSome ∧
            (alookup pd (chars r"Provider")).isSome then some pd
        else none)

/- ------------------------------------------------------------------ -/
/- parse_cloud_data_movement -/

/-- One line of the data-movement table: fixed-width slices of 28, 26 and
13 characters, each stripped, all four pieces required non-empty. -/
def movementLineDecode (rawLine : Str) : Option Row :=
  let line := trim rawLine
  if ¬ line.isEmpty ∧ ¬ (chars r"-").isPrefixOf line ∧
      ¬ (chars r"Mtree").isPrefixOf line ∧
      ¬ containsStr line (chars r"Target(Tier/Unit Name)") then
    if 60 < line.length ∧ (chars r"/data/col1/").isPrefixOf line then
      let mtree := trim (line.take 28)
      let rem := trim (line.drop 28)
      let target := trim (rem.take 26)
      let rem2 := trim (rem.drop 26)
      let policy := trim (rem2.take 13)
      let value := trim (rem2.drop 13)
      if ¬ mtree.isEmpty ∧ ¬ target.isEmpty ∧ ¬ policy.isEmpty ∧ ¬ value.isEmpty then
        some [(chars r"Mtree", mtree), (chars r"Target", target),
          (chars r"Policy", policy), (chars r"Value", value)]
      else none
    else none
  else none

/-- parse_cloud_data_movement. -/
def parseCloudDataMovement (content : Str) : List Row :=
  match reSearch pMovement content with
  | none => []
  | some caps =>
    let sec := trim ((capGet caps 1).getD [])
    (splitOnChar '\n' sec).filterMap movementLineDecode

/- ------------------------------------------------------------------ -/
/- parse_autosupport_file -/

/-- re.search of the MULTILINE pattern field-equals-rest anchored at line
start: the first line starting with the field name and an equals sign
wins; the captured group is the remainder of that line. -/
def findFieldLine (pat : Str) : List Str → Option Str
  | [] => none
  | l :: rest =>
    match dropPre pat l with
    | some r => some r
    | none => findFieldLine pat rest

/-- Field extraction with trimming, or the sentinel when no line
matches. -/
def extractField (content : Str) (field : Str) : Str :=
  match findFieldLine (field ++ [ '=' ]) (splitOnChar '\n' content) with
  | some rest => trim rest
  | none => chars r"N/A"

def REQUIRED_FIELDS : List Str :=
  [chars r"GENERATED_ON", chars r"SYSTEM_SERIALNO", chars r"DELL_SERVICETAG",
   chars r"MODEL_NO", chars r"HOSTNAME", chars r"LOCATION"]

def SERVICES : List Str :=
  [chars r"NFS", chars r"CIFS", chars r"NDMP", chars r"CLOUD_TIER",
   chars r"REPLICATION"]

/-- A value of the per-document record dict. -/
inductive Val where
  | vs : Str → Val
  | vtables : List (Str × TVal) → Val
  | vrows : List Row → Val
deriving DecidableEq, Repr

abbrev Record := List (Str × Val)

/-- The fields, services and storage-table assignments of the try branch
(lines 158-180): the record before the cloud gate. -/
def baseRecord (content : Str) : Record :=
  let d := REQUIRED_FIELDS.foldl (fun d f =>
    ainsert f (Val.vs (extractField content f)) d) []
  let d := (parseServicesStatus content).foldl (fun d p =>
    ainsert p.1 (Val.vs p.2) d) d
  ainsert (chars r"STORAGE_TABLES") (Val.vtables (parseStorageTables content)) d

/-- The gate data.get of CLOUD_TIER equals the string Enabled (line 183),
a Boolean comparison as in Python. -/
def cloudEnabled (d : Record) : Bool :=
  alookup d (chars r"CLOUD_TIER") == some (Val.vs (chars r"Enabled"))

/-- The try branch of parse_autosupport_file on a readable document:
scalar fields, service statuses, storage tables, the cloud sections only
when the cloud-tier status is Enabled (else empty lists), and the
provenance fields. -/
def parseAutosupportContent (content sourceFile sourceTar : Str) : Record :=
  let d := baseRecord content
  let d :=
    if cloudEnabled d then
      ainsert (chars r"CLOUD_DATA_MOVEMENT") (Val.vrows (parseCloudDataMovement content))
        (ainsert (chars r"CLOUD_PROFILES") (Val.vrows (parseCloudProfiles content)) d)
    else
      ainsert (chars r"CLOUD_DATA_MOVEMENT") (Val.vrows [])
        (ainsert (chars r"CLOUD_PROFILES") (Val.vrows []) d)
  ainsert (chars r"SOURCE_TAR") (Val.vs sourceTar)
    (ainsert (chars r"SOURCE_FILE") (Val.vs sourceFile) d)

/-- The except branch of parse_autosupport_file: the record is rebuilt
from scratch with sentinel scalars, Unknown services, an empty
storage-table dict and the provenance fields; no cloud keys are
assigned. -/
def degradedRecord (sourceFile sourceTar : Str) : Record :=
  let d := REQUIRED_FIELDS.foldl (fun d f => ainsert f (Val.vs (chars r"N/A")) d) []
  let d := SERVICES.foldl (fun d s => ainsert s (Val.vs (chars r"Unknown")) d) d
  let d := ainsert (chars r"STORAGE_TABLES") (Val.vtables []) d
  ainsert (chars r"SOURCE_TAR") (Val.vs sourceTar)
    (ainsert (chars r"SOURCE_FILE") (Val.vs sourceFile) d)

/-- parse_autosupport_file: a document that could be read is parsed by the
try branch; an unreadable document (or any other exception raised inside
the try, of which reading is the reachable source) yields the degraded
record instead of a propagated failure. -/
def parseAutosupportFile (input : Option Str) (sourceFile sourceTar : Str) : Record :=
  match input with
  | some content => parseAutosupportContent content sourceFile sourceTar
  | none => degradedRecord sourceFile sourceTar

/-- The STORAGE_TABLES dict of a record, when present. -/
def stOf (rec : Record) : Option (List (Str × TVal)) :=
  match alookup rec (chars r"STORAGE_TABLES") with
  | some (Val.vtables st) => some st
  | _ => none

/-- The rows of one table family of a record, when that family was
located. -/
def tableRowsOf (rec : Record) (name : Str) : Option TVal :=
  (stOf rec).bind (fun st => alookup st name)

/- ------------------------------------------------------------------ -/
/- Concrete documents used by witnesses and counterexamples. -/

/-- The round-trip document of the specification, with the usage row
written exactly as the claim states it (two spaces between cells). -/
def docNarrow : Str := joinNl [
  chars r"GENERATED_ON=Fri Oct 17 06:03:20 EDT 2025",
  chars r"HOSTNAME=host1.example.com",
  chars r"",
  chars r"Active Tier:",
  chars r"Resource           Size GiB   Used GiB   Avail GiB   Use%   Cleanable GiB",
  chars r"------------------   --------   --------   ---------   ----   -------------",
  chars r"/data/col1  100  50  50  50%  10",
  chars r""]

/-- The round-trip document with the usage row laid out in the report's
fixed-width format: the resource cell padded to the 18-character column
the decoder slices. -/
def docPadded : Str := joinNl [
  chars r"GENERATED_ON=Fri Oct 17 06:03:20 EDT 2025",
  chars r"HOSTNAME=host1.example.com",
  chars r"",
  chars r"Active Tier:",
  chars r"Resource           Size GiB   Used GiB   Avail GiB   Use%   Cleanable GiB",
  chars r"------------------   --------   --------   ---------   ----   -------------",
  chars r"/data/col1        100  50  50  50%  10",
  chars r""]

/-- A document with one retention-lock section for /data/col1/vol1. -/
def docRetLock : Str := joinNl [
  chars r"Mtree: /data/col1/vol1",
  chars r"Option     Value",
  chars r"------   -----",
  chars r"Retention-lock   enabled",
  chars r"Retention-lock mode   compliance",
  chars r"------   -----",
  chars r""]

/- ------------------------------------------------------------------ -/
/- Helper lemmas (shared; none of them is a claim theorem). -/

theorem dropPre_eq_some {pat l r : Str} (h : dropPre pat l = some r) : l = pat ++ r := by
  induction pat generalizing l with
  | nil => simpa [dropPre] using h
  | cons p ps ih =>
    cases l with
    | nil => simp [dropPre] at h
    | cons c cs =>
      by_cases hc : c = p
      · subst hc
        simp only [dropPre, if_pos rfl] at h
        simp [ih h]
      · simp [dropPre, hc] at h

theorem dropPre_append (pat r : Str) : dropPre pat (pat ++ r) = some r := by
  induction pat with
  | nil => simp [dropPre]
  | cons p ps ih => simp [dropPre, ih]

theorem dropPre_none_of_not_isPre {pat l : Str}
    (h : ¬ pat.isPrefixOf l = true) : dropPre pat l = none := by
  cases hd : dropPre pat l with
  | none => rfl
  | some r =>
    exfalso
    apply h
    rw [List.isPrefixOf_iff_prefix]
    exact ⟨r, (dropPre_eq_some hd).symm⟩

theorem findFieldLine_none {pat : Str} {ls : List Str}
    (h : ∀ l ∈ ls, ¬ pat.isPrefixOf l = true) : findFieldLine pat ls = none := by
  induction ls with
  | nil => rfl
  | cons l rest ih =>
    have hl := dropPre_none_of_not_isPre (h l (by simp))
    simp only [findFieldLine, hl]
    exact ih (fun x hx => h x (by simp [hx]))

theorem findFieldLine_found {pat r : Str} {pre suf : List Str}
    (h : ∀ p ∈ pre, ¬ pat.isPrefixOf p = true) :
    findFieldLine pat (pre ++ (pat ++ r) :: suf) = some r := by
  induction pre with
  | nil => simp [findFieldLine, dropPre_append]
  | cons p ps ih =>
    have hp := dropPre_none_of_not_isPre (h p (by simp))
    simp only [List.cons_append, findFieldLine, hp]
    exact ih (fun x hx => h x (by simp [hx]))

theorem alookup_ainsert_self {β : Type} (d : List (Str × β)) (k : Str) (v : β) :
    alookup (ainsert k v d) k = some v := by
  induction d with
  | nil => simp [ainsert, alookup]
  | cons p rest ih =>
    by_cases hk : p.1 = k
    · simp [ainsert, hk, alookup]
    · simp only [ainsert, if_neg hk]
      have hk2 : ¬ k = p.1 := fun h => hk h.symm
      simp [alookup, hk2, ih]

theorem alookup_ainsert_ne {β : Type} (d : List (Str × β)) (k key : Str) (v : β)
    (h : ¬ key = k) : alookup (ainsert k v d) key = alookup d key := by
  induction d with
  | nil => simp [ainsert, alookup, h]
  | cons p rest ih =>
    by_cases hk : p.1 = k
    · simp [ainsert, hk, alookup, h, hk ▸ h]
    · simp only [ainsert, if_neg hk]
      by_cases hkey : key = p.1
      · simp [alookup, hkey]
      · simp [alookup, hkey, ih]

theorem alookup_cons_self {β : Type} (k : Str) (v : β) (r : List (Str × β)) :
    alookup ((k, v) :: r) k = some v := by
  simp [alookup]

theorem alookup_cons_ne {β : Type} (k key : Str) (v : β) (r : List (Str × β))
    (h : ¬ key = k) : alookup ((k, v) :: r) key = alookup r key := by
  simp [alookup, h]

theorem takeWhile_ne_of_contains {l : Str} {c : Char}
    (h : containsChar l c = true) : l.takeWhile (fun x => ¬ (x = c)) ≠ l := by
  induction l with
  | nil => simp [containsChar] at h
  | cons x t ih =>
    by_cases hx : x = c
    · subst hx
      simp [List.takeWhile_cons]
    · have ht : containsChar t c = true := by
        simp only [containsChar, List.any_cons, Bool.or_eq_true, beq_iff_eq] at h
        rcases h with h1 | h1
        · exact absurd h1 hx
        · simpa [containsChar] using h1
      intro habs
      simp only [List.takeWhile_cons, hx, not_false_eq_true, decide_True, if_true,
        List.cons.injEq, true_and] at habs
      exact ih ht habs

theorem isPre_append_of_le {p q t : Str} (h : p.length ≤ q.length) :
    p.isPrefixOf (q ++ t) = p.isPrefixOf q := by
  induction p generalizing q with
  | nil => simp
  | cons c ps ih =>
    cases q with
    | nil => simp at h
    | cons d qs =>
      simp only [List.cons_append, List.isPrefixOf_cons₂]
      rw [ih (Nat.le_of_succ_le_succ h)]

theorem splitOnChar_no_sep {c : Char} {s : Str} (h : ∀ x ∈ s, ¬ x = c) :
    splitOnChar c s = [s] := by
  induction s with
  | nil => rfl
  | cons x t ih =>
    have hx : ¬ x = c := h x (by simp)
    have ht := ih (fun y hy => h y (by simp [hy]))
    simp [splitOnChar, hx, ht]

theorem splitOnChar_mid {c : Char} {a r : Str} (h : ∀ x ∈ a, ¬ x = c) :
    splitOnChar c (a ++ c :: r) = a :: splitOnChar c r := by
  induction a with
  | nil => simp [splitOnChar]
  | cons x t ih =>
    have hx : ¬ x = c := h x (by simp)
    have ht := ih (fun y hy => h y (by simp [hy]))
    simp [splitOnChar, hx, ht]

theorem rstrip_append_close {b : Str} (h : ∀ x ∈ b, ¬ x = ')') :
    rstripChar ')' (b ++ [ ')' ]) = b := by
  unfold rstripChar
  rw [List.reverse_append]
  have h1 : List.dropWhile (fun x => x == ')') (')' :: b.reverse) =
      List.dropWhile (fun x => x == ')') b.reverse := by
    simp [List.dropWhile_cons]
  have h2 : List.dropWhile (fun x => x == ')') b.reverse = b.reverse := by
    cases hb : b.reverse with
    | nil => rfl
    | cons y ys =>
      have hy : y ∈ b := by
        rw [← List.mem_reverse, hb]
        simp
      simp [List.dropWhile_cons, h y hy]
  simp only [List.reverse_cons, List.reverse_nil, List.nil_append, List.singleton_append]
  rw [h1, h2, List.reverse_reverse]

theorem mtreeList_step_short {rl : List (Str × RetInfo)} {rep : List (Str × ReplData)}
    {b : Str} (hb : (split2ws (cleanLine b)).length < 3) :
    tableLineStep (chars r"Mtree List") rl rep b = none := by
  unfold tableLineStep
  dsimp only
  split
  · rfl
  · split
    · rfl
    · split
      · unfold mtreeListDecode
        rw [if_neg (by omega)]
      · split
        · rename_i h1 h2
          exfalso
          apply h1
          have e1 : containsStr (chars r"Mtree List") (chars r"Mtree") = true := rfl
          have e2 : containsStr (chars r"Mtree List") (chars r"Mtree List") = true := rfl
          rw [e1] at h2 ⊢
          rw [e2]
          simpa using h2
        · split
          · rename_i h3
            exfalso
            have e3 : containsStr (chars r"Mtree List") (chars r"Usage") = false := rfl
            rw [e3] at h3
            simp at h3
          · split
            · rename_i h4
              exfalso
              have e4 : containsStr (chars r"Mtree List") (chars r"Compression") = false := rfl
              have e5 : containsStr (chars r"Mtree List") (chars r"Currently Used") = false := rfl
              rw [e4, e5] at h4
              simp at h4
            · rfl

theorem usage_step_short {rl : List (Str × RetInfo)} {rep : List (Str × ReplData)}
    {b : Str} (hb : (cleanLine b).length ≤ 18) :
    tableLineStep (chars r"Active Tier Usage") rl rep b = none := by
  unfold tableLineStep
  dsimp only
  split
  · rfl
  · split
    · rfl
    · split
      · rename_i h1
        exfalso
        have e1 : containsStr (chars r"Active Tier Usage") (chars r"Mtree") = false := rfl
        rw [e1] at h1
        simp at h1
      · split
        · rename_i h2
          exfalso
          have e1 : containsStr (chars r"Active Tier Usage") (chars r"Mtree") = false := rfl
          rw [e1] at h2
          simp at h2
        · split
          · unfold usageDecode
            rw [if_neg (by omega)]
          · split
            · rename_i h4
              exfalso
              have e4 : containsStr (chars r"Active Tier Usage") (chars r"Compression") = false := rfl
              have e5 : containsStr (chars r"Active Tier Usage") (chars r"Currently Used") = false := rfl
              rw [e4, e5] at h4
              simp at h4
            · rfl

set_option maxRecDepth 100000

/-- C7: for every allowlisted field name, a line anchored at line start of
the form field-equals-rest yields that remainder trimmed, the first such
line winning; with no such line the value is the sentinel. -/
theorem c7_field_extraction (content field : Str) :
    ((∀ l ∈ splitOnChar '\n' content, ¬ (field ++ [ '=' ]).isPrefixOf l = true) →
      extractField content field = chars r"N/A")
    ∧ (∀ (pre suf : List Str) (rest : Str),
        splitOnChar '\n' content = pre ++ (field ++ '=' :: rest) :: suf →
        (∀ p ∈ pre, ¬ (field ++ [ '=' ]).isPrefixOf p = true) →
        extractField content field = trim rest) := by
  constructor
  · intro h
    unfold extractField
    rw [findFieldLine_none h]
  · intro pre suf rest hsplit hpre
    unfold extractField
    have : field ++ '=' :: rest = (field ++ [ '=' ]) ++ rest := by simp
    rw [hsplit, this, findFieldLine_found hpre]

/-- C7 witness: with two HOSTNAME lines the first wins and its value is
trimmed. -/
theorem c7_field_extraction_witness :
    extractField (chars "HOSTNAME=  h1.x \nHOSTNAME=h2") (chars r"HOSTNAME") =
      chars r"h1.x" := by
  have h := (c7_field_extraction (chars "HOSTNAME=  h1.x \nHOSTNAME=h2")
    (chars r"HOSTNAME")).2 [] [chars r"HOSTNAME=h2"] (chars "  h1.x ")
    (by decide) (by intro p hp; simp at hp)
  rw [h]
  decide

/-- C6: for the services whose predicate list checks the disabled phrase
first (CIFS and NDMP), a document containing both the disabled phrase and
the enabled phrase is classified Disabled, never Enabled. -/
theorem c6_disabled_precedence (content : Str) :
    (containsStr (lower content) (chars r"cifs is disabled") = true →
      (splitOnChar '\n' (lower content)).any (fun l =>
        matchSeq l [chars r"cifs", chars r"enabled"] ||
        matchSeq l [chars r"cifs", chars r"active"]) = true →
      cifsStatus content = chars r"Disabled")
    ∧ (containsStr (lower content) (chars r"ndmp daemon admin_state: disabled") = true →
      containsStr (lower content) (chars r"ndmp daemon admin_state: enabled") = true →
      ndmpStatus content = chars r"Disabled") := by
  constructor
  · intro h1 _
    unfold cifsStatus
    dsimp only
    rw [if_pos h1]
  · intro h1 _
    unfold ndmpStatus
    dsimp only
    rw [if_pos h1]

/-- C6 witness: a report line carrying both phrases for CIFS, and both
NDMP admin_state phrases, still classify as Disabled. -/
theorem c6_disabled_precedence_witness :
    cifsStatus (chars "CIFS is disabled: foo is enabled\nNDMP daemon admin_state: disabled\nNDMP daemon admin_state: enabled") = chars r"Disabled" ∧
    ndmpStatus (chars "CIFS is disabled: foo is enabled\nNDMP daemon admin_state: disabled\nNDMP daemon admin_state: enabled") = chars r"Disabled" := by
  constructor
  · exact (c6_disabled_precedence _).1 (by decide) (by decide)
  · exact (c6_disabled_precedence _).2 (by decide) (by decide)

/-- C10: a Connection Host line whose value contains a dot stores only the
part before the first dot; the full host string is not preserved. -/
theorem c10_connection_host (d : ReplData) (mp : Option Str) (rawLine : Str)
    (hpre2 : (chars r"Connection Host:").isPrefixOf (trim rawLine) = true)
    (hdot : containsChar (trim (afterColon (trim rawLine))) '.' = true) :
    (replStep (d, mp) rawLine).1.connHost =
      (trim (afterColon (trim rawLine))).takeWhile (fun c => ¬ (c = '.')) ∧
    (trim (afterColon (trim rawLine))).takeWhile (fun c => ¬ (c = '.')) ≠
      trim (afterColon (trim rawLine)) := by
  obtain ⟨t, ht⟩ := List.isPrefixOf_iff_prefix.mp hpre2
  have hm : (chars r"Mode:").isPrefixOf (trim rawLine) = false := by
    rw [← ht, isPre_append_of_le (by decide)]
    decide
  have hd2 : (chars r"Destination:").isPrefixOf (trim rawLine) = false := by
    rw [← ht, isPre_append_of_le (by decide)]
    decide
  refine ⟨?_, takeWhile_ne_of_contains hdot⟩
  unfold replStep
  dsimp only
  simp only [hm, hd2, hpre2, hdot, Bool.false_eq_true, if_false, if_true,
    ite_false, ite_true]

/-- C10 witness: a concrete context line keeps srv1 out of
srv1.example.com. -/
theorem c10_connection_host_witness :
    (replStep (replStart, none) (chars "  Connection Host: srv1.example.com")).1.connHost =
      chars r"srv1" ∧
    ¬ (replStep (replStart, none) (chars "  Connection Host: srv1.example.com")).1.connHost =
      chars r"srv1.example.com" := by
  have h := c10_connection_host replStart none
    (chars "  Connection Host: srv1.example.com") (by decide) (by decide)
  constructor
  · rw [h.1]
    decide
  · rw [h.1]
    decide

/- Record-lookup helper lemmas.  The chain characterizations below are
definitional restatements of baseRecord and parseAutosupportContent with
the folds over the literal field and service lists unrolled; every later
lookup is then settled by syntactic rewriting. -/

theorem parseContent_chain (content f t : Str) :
    parseAutosupportContent content f t =
    ainsert (chars r"SOURCE_TAR") (Val.vs t)
      (ainsert (chars r"SOURCE_FILE") (Val.vs f)
        (if cloudEnabled (baseRecord content) then
          ainsert (chars r"CLOUD_DATA_MOVEMENT") (Val.vrows (parseCloudDataMovement content))
            (ainsert (chars r"CLOUD_PROFILES") (Val.vrows (parseCloudProfiles content))
              (baseRecord content))
        else
          ainsert (chars r"CLOUD_DATA_MOVEMENT") (Val.vrows [])
            (ainsert (chars r"CLOUD_PROFILES") (Val.vrows [])
              (baseRecord content)))) := rfl

theorem baseRecord_chain (content : Str) :
    baseRecord content =
    ainsert (chars r"STORAGE_TABLES") (Val.vtables (parseStorageTables content))
     (ainsert (chars r"REPLICATION") (Val.vs (replicationStatus content))
     (ainsert (chars r"CLOUD_TIER") (Val.vs (cloudTierStatus content))
     (ainsert (chars r"NDMP") (Val.vs (ndmpStatus content))
     (ainsert (chars r"CIFS") (Val.vs (cifsStatus content))
     (ainsert (chars r"NFS") (Val.vs (nfsStatus content))
     (ainsert (chars r"LOCATION") (Val.vs (extractField content (chars r"LOCATION")))
     (ainsert (chars r"HOSTNAME") (Val.vs (extractField content (chars r"HOSTNAME")))
     (ainsert (chars r"MODEL_NO") (Val.vs (extractField content (chars r"MODEL_NO")))
     (ainsert (chars r"DELL_SERVICETAG") (Val.vs (extractField content (chars r"DELL_SERVICETAG")))
     (ainsert (chars r"SYSTEM_SERIALNO") (Val.vs (extractField content (chars r"SYSTEM_SERIALNO")))
     (ainsert (chars r"GENERATED_ON") (Val.vs (extractField content (chars r"GENERATED_ON")))
     ([])))))))))))) := by
  unfold baseRecord parseServicesStatus
  simp only [REQUIRED_FIELDS, List.foldl_cons, List.foldl_nil]

theorem alookup_base_GENERATED_ON (content : Str) :
    alookup (baseRecord content) (chars r"GENERATED_ON") = some (Val.vs (extractField content (chars r"GENERATED_ON"))) := by
  rw [baseRecord_chain]
  rw [alookup_ainsert_ne _ _ _ _ (by decide)]
  rw [alookup_ainsert_ne _ _ _ _ (by decide)]
  rw [alookup_ainsert_ne _ _ _ _ (by decide)]
  rw [alookup_ainsert_ne _ _ _ _ (by decide)]
  rw [alookup_ainsert_ne _ _ _ _ (by decide)]
  rw [alookup_ainsert_ne _ _ _ _ (by decide)]
  rw [alookup_ainsert_ne _ _ _ _ (by decide)]
  rw [alookup_ainsert_ne _ _ _ _ (by decide)]
  rw [alookup_ainsert_ne _ _ _ _ (by decide)]
  rw [alookup_ainsert_ne _ _ _ _ (by decide)]
  rw [alookup_ainsert_ne _ _ _ _ (by decide)]
  rw [alookup_ainsert_self]

theorem alookup_base_SYSTEM_SERIALNO (content : Str) :
    alookup (baseRecord content) (chars r"SYSTEM_SERIALNO") = some (Val.vs (extractField content (chars r"SYSTEM_SERIALNO"))) := by
  rw [baseRecord_chain]
  rw [alookup_ainsert_ne _ _ _ _ (by decide)]
  rw [alookup_ainsert_ne _ _ _ _ (by decide)]
  rw [alookup_ainsert_ne _ _ _ _ (by decide)]
  rw [alookup_ainsert_ne _ _ _ _ (by decide)]
  rw [alookup_ainsert_ne _ _ _ _ (by decide)]
  rw [alookup_ainsert_ne _ _ _ _ (by decide)]
  rw [alookup_ainsert_ne _ _ _ _ (by decide)]
  rw [alookup_ainsert_ne _ _ _ _ (by decide)]
  rw [alookup_ainsert_ne _ _ _ _ (by decide)]
  rw [alookup_ainsert_ne _ _ _ _ (by decide)]
  rw [alookup_ainsert_self]

theorem alookup_base_DELL_SERVICETAG (content : Str) :
    alookup (baseRecord content) (chars r"DELL_SERVICETAG") = some (Val.vs (extractField content (chars r"DELL_SERVICETAG"))) := by
  rw [baseRecord_chain]
  rw [alookup_ainsert_ne _ _ _ _ (by decide)]
  rw [alookup_ainsert_ne _ _ _ _ (by decide)]
  rw [alookup_ainsert_ne _ _ _ _ (by decide)]
  rw [alookup_ainsert_ne _ _ _ _ (by decide)]
  rw [alookup_ainsert_ne _ _ _ _ (by decide)]
  rw [alookup_ainsert_ne _ _ _ _ (by decide)]
  rw [alookup_ainsert_ne _ _ _ _ (by decide)]
  rw [alookup_ainsert_ne _ _ _ _ (by decide)]
  rw [alookup_ainsert_ne _ _ _ _ (by decide)]
  rw [alookup_ainsert_self]

theorem alookup_base_MODEL_NO (content : Str) :
    alookup (baseRecord content) (chars r"MODEL_NO") = some (Val.vs (extractField content (chars r"MODEL_NO"))) := by
  rw [baseRecord_chain]
  rw [alookup_ainsert_ne _ _ _ _ (by decide)]
  rw [alookup_ainsert_ne _ _ _ _ (by decide)]
  rw [alookup_ainsert_ne _ _ _ _ (by decide)]
  rw [alookup_ainsert_ne _ _ _ _ (by decide)]
  rw [alookup_ainsert_ne _ _ _ _ (by decide)]
  rw [alookup_ainsert_ne _ _ _ _ (by decide)]
  rw [alookup_ainsert_ne _ _ _ _ (by decide)]
  rw [alookup_ainsert_ne _ _ _ _ (by decide)]
  rw [alookup_ainsert_self]

theorem alookup_base_HOSTNAME (content : Str) :
    alookup (baseRecord content) (chars r"HOSTNAME") = some (Val.vs (extractField content (chars r"HOSTNAME"))) := by
  rw [baseRecord_chain]
  rw [alookup_ainsert_ne _ _ _ _ (by decide)]
  rw [alookup_ainsert_ne _ _ _ _ (by decide)]
  rw [alookup_ainsert_ne _ _ _ _ (by decide)]
  rw [alookup_ainsert_ne _ _ _ _ (by decide)]
  rw [alookup_ainsert_ne _ _ _ _ (by decide)]
  rw [alookup_ainsert_ne _ _ _ _ (by decide)]
  rw [alookup_ainsert_ne _ _ _ _ (by decide)]
  rw [alookup_ainsert_self]

theorem alookup_base_LOCATION (content : Str) :
    alookup (baseRecord content) (chars r"LOCATION") = some (Val.vs (extractField content (chars r"LOCATION"))) := by
  rw [baseRecord_chain]
  rw [alookup_ainsert_ne _ _ _ _ (by decide)]
  rw [alookup_ainsert_ne _ _ _ _ (by decide)]
  rw [alookup_ainsert_ne _ _ _ _ (by decide)]
  rw [alookup_ainsert_ne _ _ _ _ (by decide)]
  rw [alookup_ainsert_ne _ _ _ _ (by decide)]
  rw [alookup_ainsert_ne _ _ _ _ (by decide)]
  rw [alookup_ainsert_self]

theorem alookup_base_NFS (content : Str) :
    alookup (baseRecord content) (chars r"NFS") = some (Val.vs (nfsStatus content)) := by
  rw [baseRecord_chain]
  rw [alookup_ainsert_ne _ _ _ _ (by decide)]
  rw [alookup_ainsert_ne _ _ _ _ (by decide)]
  rw [alookup_ainsert_ne _ _ _ _ (by decide)]
  rw [alookup_ainsert_ne _ _ _ _ (by decide)]
  rw [alookup_ainsert_ne _ _ _ _ (by decide)]
  rw [alookup_ainsert_self]

theorem alookup_base_CIFS (content : Str) :
    alookup (baseRecord content) (chars r"CIFS") = some (Val.vs (cifsStatus content)) := by
  rw [baseRecord_chain]
  rw [alookup_ainsert_ne _ _ _ _ (by decide)]
  rw [alookup_ainsert_ne _ _ _ _ (by decide)]
  rw [alookup_ainsert_ne _ _ _ _ (by decide)]
  rw [alookup_ainsert_ne _ _ _ _ (by decide)]
  rw [alookup_ainsert_self]

theorem alookup_base_NDMP (content : Str) :
    alookup (baseRecord content) (chars r"NDMP") = some (Val.vs (ndmpStatus content)) := by
  rw [baseRecord_chain]
  rw [alookup_ainsert_ne _ _ _ _ (by decide)]
  rw [alookup_ainsert_ne _ _ _ _ (by decide)]
  rw [alookup_ainsert_ne _ _ _ _ (by decide)]
  rw [alookup_ainsert_self]

theorem alookup_base_CLOUD_TIER (content : Str) :
    alookup (baseRecord content) (chars r"CLOUD_TIER") = some (Val.vs (cloudTierStatus content)) := by
  rw [baseRecord_chain]
  rw [alookup_ainsert_ne _ _ _ _ (by decide)]
  rw [alookup_ainsert_ne _ _ _ _ (by decide)]
  rw [alookup_ainsert_self]

theorem alookup_base_REPLICATION (content : Str) :
    alookup (baseRecord content) (chars r"REPLICATION") = some (Val.vs (replicationStatus content)) := by
  rw [baseRecord_chain]
  rw [alookup_ainsert_ne _ _ _ _ (by decide)]
  rw [alookup_ainsert_self]

theorem alookup_base_STORAGE_TABLES (content : Str) :
    alookup (baseRecord content) (chars r"STORAGE_TABLES") = some (Val.vtables (parseStorageTables content)) := by
  rw [baseRecord_chain]
  rw [alookup_ainsert_self]

theorem lookup_parse_base (content f t key : Str)
    (h1 : ¬ key = chars r"SOURCE_TAR") (h2 : ¬ key = chars r"SOURCE_FILE")
    (h3 : ¬ key = chars r"CLOUD_DATA_MOVEMENT") (h4 : ¬ key = chars r"CLOUD_PROFILES") :
    alookup (parseAutosupportContent content f t) key = alookup (baseRecord content) key := by
  rw [parseContent_chain]
  rw [alookup_ainsert_ne _ _ _ _ h1, alookup_ainsert_ne _ _ _ _ h2]
  cases cloudEnabled (baseRecord content)
  · simp only [Bool.false_eq_true, if_false]
    rw [alookup_ainsert_ne _ _ _ _ h3, alookup_ainsert_ne _ _ _ _ h4]
  · simp only [if_true]
    rw [alookup_ainsert_ne _ _ _ _ h3, alookup_ainsert_ne _ _ _ _ h4]

theorem lookup_parse_SOURCE_TAR (content f t : Str) :
    alookup (parseAutosupportContent content f t) (chars r"SOURCE_TAR") =
      some (Val.vs t) := by
  rw [parseContent_chain, alookup_ainsert_self]

theorem lookup_parse_SOURCE_FILE (content f t : Str) :
    alookup (parseAutosupportContent content f t) (chars r"SOURCE_FILE") =
      some (Val.vs f) := by
  rw [parseContent_chain]
  rw [alookup_ainsert_ne _ _ _ _ (by decide), alookup_ainsert_self]

theorem lookup_parse_CP_false (content f t : Str)
    (hg : cloudEnabled (baseRecord content) = false) :
    alookup (parseAutosupportContent content f t) (chars r"CLOUD_PROFILES") =
      some (Val.vrows []) := by
  rw [parseContent_chain, hg]
  simp only [Bool.false_eq_true, if_false]
  rw [alookup_ainsert_ne _ _ _ _ (by decide), alookup_ainsert_ne _ _ _ _ (by decide),
    alookup_ainsert_ne _ _ _ _ (by decide), alookup_ainsert_self]

theorem lookup_parse_CDM_false (content f t : Str)
    (hg : cloudEnabled (baseRecord content) = false) :
    alookup (parseAutosupportContent content f t) (chars r"CLOUD_DATA_MOVEMENT") =
      some (Val.vrows []) := by
  rw [parseContent_chain, hg]
  simp only [Bool.false_eq_true, if_false]
  rw [alookup_ainsert_ne _ _ _ _ (by decide), alookup_ainsert_ne _ _ _ _ (by decide),
    alookup_ainsert_self]

theorem lookup_parse_CP_true (content f t : Str)
    (hg : cloudEnabled (baseRecord content) = true) :
    alookup (parseAutosupportContent content f t) (chars r"CLOUD_PROFILES") =
      some (Val.vrows (parseCloudProfiles content)) := by
  rw [parseContent_chain, hg]
  simp only [if_true]
  rw [alookup_ainsert_ne _ _ _ _ (by decide), alookup_ainsert_ne _ _ _ _ (by decide),
    alookup_ainsert_ne _ _ _ _ (by decide), alookup_ainsert_self]

theorem lookup_parse_CDM_true (content f t : Str)
    (hg : cloudEnabled (baseRecord content) = true) :
    alookup (parseAutosupportContent content f t) (chars r"CLOUD_DATA_MOVEMENT") =
      some (Val.vrows (parseCloudDataMovement content)) := by
  rw [parseContent_chain, hg]
  simp only [if_true]
  rw [alookup_ainsert_ne _ _ _ _ (by decide), alookup_ainsert_ne _ _ _ _ (by decide),
    alookup_ainsert_self]

theorem cloudEnabled_status (content : Str) :
    cloudEnabled (baseRecord content) = (cloudTierStatus content == chars r"Enabled") := by
  unfold cloudEnabled
  rw [alookup_base_CLOUD_TIER]
  by_cases h : cloudTierStatus content = chars r"Enabled"
  · simp [h]
  · simp [h]

/-- C8: cloud-profile and cloud-movement sequences are extracted only when
the cloud-tier status is Enabled; for Disabled, Configured or Unknown both
sequences of the returned record are unconditionally empty. -/
theorem c8_cloud_gate (content f t : Str)
    (h : cloudTierStatus content = chars r"Disabled" ∨
         cloudTierStatus content = chars r"Configured" ∨
         cloudTierStatus content = chars r"Unknown") :
    alookup (parseAutosupportFile (some content) f t) (chars r"CLOUD_PROFILES") =
      some (Val.vrows []) ∧
    alookup (parseAutosupportFile (some content) f t) (chars r"CLOUD_DATA_MOVEMENT") =
      some (Val.vrows []) := by
  have hne : ¬ cloudTierStatus content = chars r"Enabled" := by
    rcases h with h | h | h <;> rw [h] <;> decide
  have hg : cloudEnabled (baseRecord content) = false := by
    rw [cloudEnabled_status]
    simp [hne]
  exact ⟨lookup_parse_CP_false content f t hg, lookup_parse_CDM_false content f t hg⟩

/-- C8 witness: the empty document has cloud-tier status Unknown and both
cloud sequences empty. -/
theorem c8_cloud_gate_witness :
    alookup (parseAutosupportFile (some (chars r"")) (chars r"f") (chars r"t"))
      (chars r"CLOUD_PROFILES") = some (Val.vrows []) ∧
    alookup (parseAutosupportFile (some (chars r"")) (chars r"f") (chars r"t"))
      (chars r"CLOUD_DATA_MOVEMENT") = some (Val.vrows []) :=
  c8_cloud_gate (chars r"") (chars r"f") (chars r"t") (Or.inr (Or.inr (by decide)))

/-- C2 counterexample: the degraded record returned for an unreadable
document does not contain the cloud-profile and cloud-movement keys at
all, so its cloud table collections are not present-and-empty as the
claim states. -/
theorem c2_counterexample :
    alookup (parseAutosupportFile none (chars r"autosupport") (chars r"a.tar.gz"))
      (chars r"CLOUD_PROFILES") = none ∧
    alookup (parseAutosupportFile none (chars r"autosupport") (chars r"a.tar.gz"))
      (chars r"CLOUD_DATA_MOVEMENT") = none := ⟨rfl, rfl⟩

/-- C2 amended: an unreadable document never propagates its failure; the
degraded record carries the sentinel for every allowlisted scalar field,
Unknown for every service, an empty storage-table mapping and the
provenance fields, while the cloud-profile and cloud-movement keys are
absent from it (consumers read them through a lookup with an empty
default). -/
theorem c2_degraded_amended (f t : Str) :
    alookup (parseAutosupportFile none f t) (chars r"GENERATED_ON") = some (Val.vs (chars r"N/A")) ∧
    alookup (parseAutosupportFile none f t) (chars r"SYSTEM_SERIALNO") = some (Val.vs (chars r"N/A")) ∧
    alookup (parseAutosupportFile none f t) (chars r"DELL_SERVICETAG") = some (Val.vs (chars r"N/A")) ∧
    alookup (parseAutosupportFile none f t) (chars r"MODEL_NO") = some (Val.vs (chars r"N/A")) ∧
    alookup (parseAutosupportFile none f t) (chars r"HOSTNAME") = some (Val.vs (chars r"N/A")) ∧
    alookup (parseAutosupportFile none f t) (chars r"LOCATION") = some (Val.vs (chars r"N/A")) ∧
    alookup (parseAutosupportFile none f t) (chars r"NFS") = some (Val.vs (chars r"Unknown")) ∧
    alookup (parseAutosupportFile none f t) (chars r"CIFS") = some (Val.vs (chars r"Unknown")) ∧
    alookup (parseAutosupportFile none f t) (chars r"NDMP") = some (Val.vs (chars r"Unknown")) ∧
    alookup (parseAutosupportFile none f t) (chars r"CLOUD_TIER") = some (Val.vs (chars r"Unknown")) ∧
    alookup (parseAutosupportFile none f t) (chars r"REPLICATION") = some (Val.vs (chars r"Unknown")) ∧
    alookup (parseAutosupportFile none f t) (chars r"STORAGE_TABLES") = some (Val.vtables []) ∧
    alookup (parseAutosupportFile none f t) (chars r"SOURCE_FILE") = some (Val.vs f) ∧
    alookup (parseAutosupportFile none f t) (chars r"SOURCE_TAR") = some (Val.vs t) ∧
    alookup (parseAutosupportFile none f t) (chars r"CLOUD_PROFILES") = none ∧
    alookup (parseAutosupportFile none f t) (chars r"CLOUD_DATA_MOVEMENT") = none :=
  ⟨rfl, rfl, rfl, rfl, rfl, rfl, rfl, rfl, rfl, rfl, rfl, rfl, rfl, rfl, rfl, rfl⟩

/-- C3 counterexample: a successfully parsed document with no located
sections yields an empty storage-table mapping in which no table family
is present at all; the claim that a missing section maps to a present
empty row sequence fails here. -/
theorem c3_counterexample :
    stOf (parseAutosupportFile (some (chars r"X")) (chars r"autosupport") (chars r"a.tar.gz")) =
      some [] ∧
    tableRowsOf (parseAutosupportFile (some (chars r"X")) (chars r"autosupport") (chars r"a.tar.gz"))
      (chars r"Active Tier Usage") = none := by
  constructor
  · decide
  · decide

/-- C3 amended: on the success path every top-level record key is present
(scalar fields, the five services, the storage-table mapping, both cloud
sequences and the provenance fields), but a table family whose section is
missing may be absent from the storage-table mapping; on the degraded
path everything but the two cloud keys is present and those two keys are
absent. -/
theorem c3_keys_amended (content f t : Str) :
    (alookup (parseAutosupportFile (some content) f t) (chars r"GENERATED_ON")).isSome = true ∧
    (alookup (parseAutosupportFile (some content) f t) (chars r"SYSTEM_SERIALNO")).isSome = true ∧
    (alookup (parseAutosupportFile (some content) f t) (chars r"DELL_SERVICETAG")).isSome = true ∧
    (alookup (parseAutosupportFile (some content) f t) (chars r"MODEL_NO")).isSome = true ∧
    (alookup (parseAutosupportFile (some content) f t) (chars r"HOSTNAME")).isSome = true ∧
    (alookup (parseAutosupportFile (some content) f t) (chars r"LOCATION")).isSome = true ∧
    (alookup (parseAutosupportFile (some content) f t) (chars r"NFS")).isSome = true ∧
    (alookup (parseAutosupportFile (some content) f t) (chars r"CIFS")).isSome = true ∧
    (alookup (parseAutosupportFile (some content) f t) (chars r"NDMP")).isSome = true ∧
    (alookup (parseAutosupportFile (some content) f t) (chars r"CLOUD_TIER")).isSome = true ∧
    (alookup (parseAutosupportFile (some content) f t) (chars r"REPLICATION")).isSome = true ∧
    (alookup (parseAutosupportFile (some content) f t) (chars r"STORAGE_TABLES")).isSome = true ∧
    (alookup (parseAutosupportFile (some content) f t) (chars r"CLOUD_PROFILES")).isSome = true ∧
    (alookup (parseAutosupportFile (some content) f t) (chars r"CLOUD_DATA_MOVEMENT")).isSome = true ∧
    (alookup (parseAutosupportFile (some content) f t) (chars r"SOURCE_FILE")).isSome = true ∧
    (alookup (parseAutosupportFile (some content) f t) (chars r"SOURCE_TAR")).isSome = true ∧
    (alookup (parseAutosupportFile none f t) (chars r"GENERATED_ON")).isSome = true ∧
    (alookup (parseAutosupportFile none f t) (chars r"SYSTEM_SERIALNO")).isSome = true ∧
    (alookup (parseAutosupportFile none f t) (chars r"DELL_SERVICETAG")).isSome = true ∧
    (alookup (parseAutosupportFile none f t) (chars r"MODEL_NO")).isSome = true ∧
    (alookup (parseAutosupportFile none f t) (chars r"HOSTNAME")).isSome = true ∧
    (alookup (parseAutosupportFile none f t) (chars r"LOCATION")).isSome = true ∧
    (alookup (parseAutosupportFile none f t) (chars r"NFS")).isSome = true ∧
    (alookup (parseAutosupportFile none f t) (chars r"CIFS")).isSome = true ∧
    (alookup (parseAutosupportFile none f t) (chars r"NDMP")).isSome = true ∧
    (alookup (parseAutosupportFile none f t) (chars r"CLOUD_TIER")).isSome = true ∧
    (alookup (parseAutosupportFile none f t) (chars r"REPLICATION")).isSome = true ∧
    (alookup (parseAutosupportFile none f t) (chars r"STORAGE_TABLES")).isSome = true ∧
    (alookup (parseAutosupportFile none f t) (chars r"SOURCE_FILE")).isSome = true ∧
    (alookup (parseAutosupportFile none f t) (chars r"SOURCE_TAR")).isSome = true ∧
    alookup (parseAutosupportFile none f t) (chars r"CLOUD_PROFILES") = none ∧
    alookup (parseAutosupportFile none f t) (chars r"CLOUD_DATA_MOVEMENT") = none := by
  refine ⟨?_, ?_, ?_, ?_, ?_, ?_, ?_, ?_, ?_, ?_, ?_, ?_, ?_, ?_, ?_, ?_, ?_, ?_, ?_, ?_, ?_, ?_, ?_, ?_, ?_, ?_, ?_, ?_, ?_, ?_, ?_, ?_⟩
  · show (alookup (parseAutosupportContent content f t) (chars r"GENERATED_ON")).isSome = true
    rw [lookup_parse_base content f t _ (by decide) (by decide) (by decide) (by decide), alookup_base_GENERATED_ON]
    rfl
  · show (alookup (parseAutosupportContent content f t) (chars r"SYSTEM_SERIALNO")).isSome = true
    rw [lookup_parse_base content f t _ (by decide) (by decide) (by decide) (by decide), alookup_base_SYSTEM_SERIALNO]
    rfl
  · show (alookup (parseAutosupportContent content f t) (chars r"DELL_SERVICETAG")).isSome = true
    rw [lookup_parse_base content f t _ (by decide) (by decide) (by decide) (by decide), alookup_base_DELL_SERVICETAG]
    rfl
  · show (alookup (parseAutosupportContent content f t) (chars r"MODEL_NO")).isSome = true
    rw [lookup_parse_base content f t _ (by decide) (by decide) (by decide) (by decide), alookup_base_MODEL_NO]
    rfl
  · show (alookup (parseAutosupportContent content f t) (chars r"HOSTNAME")).isSome = true
    rw [lookup_parse_base content f t _ (by decide) (by decide) (by decide) (by decide), alookup_base_HOSTNAME]
    rfl
  · show (alookup (parseAutosupportContent content f t) (chars r"LOCATION")).isSome = true
    rw [lookup_parse_base content f t _ (by decide) (by decide) (by decide) (by decide), alookup_base_LOCATION]
    rfl
  · show (alookup (parseAutosupportContent content f t) (chars r"NFS")).isSome = true
    rw [lookup_parse_base content f t _ (by decide) (by decide) (by decide) (by decide), alookup_base_NFS]
    rfl
  · show (alookup (parseAutosupportContent content f t) (chars r"CIFS")).isSome = true
    rw [lookup_parse_base content f t _ (by decide) (by decide) (by decide) (by decide), alookup_base_CIFS]
    rfl
  · show (alookup (parseAutosupportContent content f t) (chars r"NDMP")).isSome = true
    rw [lookup_parse_base content f t _ (by decide) (by decide) (by decide) (by decide), alookup_base_NDMP]
    rfl
  · show (alookup (parseAutosupportContent content f t) (chars r"CLOUD_TIER")).isSome = true
    rw [lookup_parse_base content f t _ (by decide) (by decide) (by decide) (by decide), alookup_base_CLOUD_TIER]
    rfl
  · show (alookup (parseAutosupportContent content f t) (chars r"REPLICATION")).isSome = true
    rw [lookup_parse_base content f t _ (by decide) (by decide) (by decide) (by decide), alookup_base_REPLICATION]
    rfl
  · show (alookup (parseAutosupportContent content f t) (chars r"STORAGE_TABLES")).isSome = true
    rw [lookup_parse_base content f t _ (by decide) (by decide) (by decide) (by decide), alookup_base_STORAGE_TABLES]
    rfl
  · show (alookup (parseAutosupportContent content f t) (chars r"CLOUD_PROFILES")).isSome = true
    cases hg : cloudEnabled (baseRecord content)
    · rw [lookup_parse_CP_false content f t hg]
      rfl
    · rw [lookup_parse_CP_true content f t hg]
      rfl
  · show (alookup (parseAutosupportContent content f t) (chars r"CLOUD_DATA_MOVEMENT")).isSome = true
    cases hg : cloudEnabled (baseRecord content)
    · rw [lookup_parse_CDM_false content f t hg]
      rfl
    · rw [lookup_parse_CDM_true content f t hg]
      rfl
  · show (alookup (parseAutosupportContent content f t) (chars r"SOURCE_FILE")).isSome = true
    rw [lookup_parse_SOURCE_FILE content f t]
    rfl
  · show (alookup (parseAutosupportContent content f t) (chars r"SOURCE_TAR")).isSome = true
    rw [lookup_parse_SOURCE_TAR content f t]
    rfl
  · exact rfl
  · exact rfl
  · exact rfl
  · exact rfl
  · exact rfl
  · exact rfl
  · exact rfl
  · exact rfl
  · exact rfl
  · exact rfl
  · exact rfl
  · exact rfl
  · exact rfl
  · exact rfl
  · exact rfl
  · exact rfl

/-- C4 counterexample: in a volume-compression row the literal dash cell is
not kept; the decoder stores the sentinel in its place. -/
theorem c4_counterexample :
    (mtreeCompDecode (chars r"/data/col1/backup    -  100.0  2.0x  1.5x  300.0(50.0)  5.0  90.0  2.0x  1.5x  250.0(40.0)")).map
      (fun row => rget row (chars r"Pre_24hrs_GiB")) = some (some (chars r"N/A")) ∧
    ¬ chars r"N/A" = chars r"-" := by
  constructor
  · decide
  · decide

/-- C4 amended: usage and metric-compression rows store every cell
verbatim from the line tokens (so a literal dash cell is kept as a
dash), while volume-compression rows replace a literal dash in any of
their ten value cells by the sentinel; the combined total(percentage)
cells are split at the parenthesis pair, and without parentheses the
whole value is the total and the percentage the sentinel. -/
theorem c4_cells_amended :
    (∀ (line : Str) (row : Row), usageDecode line = some row →
      rget row (chars r"Resource") = some (trim ((cleanLine line).take 18)) ∧
      rget row (chars r"Size_GiB") = some (vget (splitWs (trim ((cleanLine line).drop 18))) 0) ∧
      rget row (chars r"Used_GiB") = some (vget (splitWs (trim ((cleanLine line).drop 18))) 1) ∧
      rget row (chars r"Avail_GiB") = some (vget (splitWs (trim ((cleanLine line).drop 18))) 2) ∧
      rget row (chars r"Use_Percent") = some (vget (splitWs (trim ((cleanLine line).drop 18))) 3) ∧
      rget row (chars r"Cleanable_GiB") = some (vget (splitWs (trim ((cleanLine line).drop 18))) 4))
    ∧ (∀ (line : Str) (row : Row), compDecode line = some row →
      ∃ k : Nat,
        rget row (chars r"Pre_Comp_GiB") = some (vget ((splitWs (cleanLine line)).drop k) 0) ∧
        rget row (chars r"Post_Comp_GiB") = some (vget ((splitWs (cleanLine line)).drop k) 1) ∧
        rget row (chars r"Global_Comp_Factor") = some (vget ((splitWs (cleanLine line)).drop k) 2) ∧
        rget row (chars r"Local_Comp_Factor") = some (vget ((splitWs (cleanLine line)).drop k) 3) ∧
        rget row (chars r"Total_Comp_Factor") = some (vget ((splitWs (cleanLine line)).drop k) 4))
    ∧ (∀ (line : Str) (row : Row) (nr : Str × Str),
      mtreeCompMatch (cleanLine line) = some nr →
      mtreeCompDecode line = some row →
      (vget (splitWs (trim nr.2)) 0 = chars r"-" →
        rget row (chars r"Pre_24hrs_GiB") = some (chars r"N/A")) ∧
      (vget (splitWs (trim nr.2)) 1 = chars r"-" →
        rget row (chars r"Post_24hrs_GiB") = some (chars r"N/A")) ∧
      (vget (splitWs (trim nr.2)) 2 = chars r"-" →
        rget row (chars r"Global_24hrs") = some (chars r"N/A")) ∧
      (vget (splitWs (trim nr.2)) 3 = chars r"-" →
        rget row (chars r"Local_24hrs") = some (chars r"N/A")) ∧
      (vget (splitWs (trim nr.2)) 4 = chars r"-" →
        rget row (chars r"Total_24hrs") = some (chars r"N/A") ∧
        rget row (chars r"Reduction_24hrs_Percent") = some (chars r"N/A")) ∧
      (vget (splitWs (trim nr.2)) 5 = chars r"-" →
        rget row (chars r"Pre_7days_GiB") = some (chars r"N/A")) ∧
      (vget (splitWs (trim nr.2)) 6 = chars r"-" →
        rget row (chars r"Post_7days_GiB") = some (chars r"N/A")) ∧
      (vget (splitWs (trim nr.2)) 7 = chars r"-" →
        rget row (chars r"Global_7days") = some (chars r"N/A")) ∧
      (vget (splitWs (trim nr.2)) 8 = chars r"-" →
        rget row (chars r"Local_7days") = some (chars r"N/A")) ∧
      (vget (splitWs (trim nr.2)) 9 = chars r"-" →
        rget row (chars r"Total_7days") = some (chars r"N/A") ∧
        rget row (chars r"Reduction_7days_Percent") = some (chars r"N/A")))
    ∧ (∀ v : Str, (containsChar v '(' && containsChar v ')') = false →
      splitTotalReduction v = (v, chars r"N/A"))
    ∧ (∀ a b : Str, (∀ x ∈ a, ¬ x = '(') → (∀ x ∈ b, ¬ x = '(' ∧ ¬ x = ')') →
      splitTotalReduction (a ++ '(' :: (b ++ [ ')' ])) = (a, b)) := by
  refine ⟨?_, ?_, ?_, ?_, ?_⟩
  · intro line row h
    unfold usageDecode at h
    dsimp only at h
    split at h
    · split at h
      · injection h with h
        subst h
        exact ⟨rfl, rfl, rfl, rfl, rfl, rfl⟩
      · exact absurd h (by simp)
    · exact absurd h (by simp)
  · intro line row h
    unfold compDecode at h
    dsimp only at h
    split at h
    · split at h
      · repeat' split at h
        all_goals first
          | (injection h with h
             subst h
             first
               | exact ⟨1, rfl, rfl, rfl, rfl, rfl⟩
               | exact ⟨2, rfl, rfl, rfl, rfl, rfl⟩
               | exact ⟨3, rfl, rfl, rfl, rfl, rfl⟩)
          | injection h
      · exact absurd h (by simp)
    · exact absurd h (by simp)
  · intro line row nr hm h
    unfold mtreeCompDecode at h
    dsimp only at h
    split at h
    · rw [hm] at h
      dsimp only at h
      split at h
      · injection h with h
        subst h
        refine ⟨?_, ?_, ?_, ?_, ?_, ?_, ?_, ?_, ?_, ?_⟩
        · intro hv
          rw [hv]
          simp only [rget]
          rw [alookup_cons_ne _ _ _ _ (by decide)]
          rw [alookup_cons_self]
          decide
        · intro hv
          rw [hv]
          simp only [rget]
          rw [alookup_cons_ne _ _ _ _ (by decide)]
          rw [alookup_cons_ne _ _ _ _ (by decide)]
          rw [alookup_cons_self]
          decide
        · intro hv
          rw [hv]
          simp only [rget]
          rw [alookup_cons_ne _ _ _ _ (by decide)]
          rw [alookup_cons_ne _ _ _ _ (by decide)]
          rw [alookup_cons_ne _ _ _ _ (by decide)]
          rw [alookup_cons_self]
          decide
        · intro hv
          rw [hv]
          simp only [rget]
          rw [alookup_cons_ne _ _ _ _ (by decide)]
          rw [alookup_cons_ne _ _ _ _ (by decide)]
          rw [alookup_cons_ne _ _ _ _ (by decide)]
          rw [alookup_cons_ne _ _ _ _ (by decide)]
          rw [alookup_cons_self]
          decide
        · intro hv
          rw [hv]
          constructor
          ·
            simp only [rget]
            rw [alookup_cons_ne _ _ _ _ (by decide)]
            rw [alookup_cons_ne _ _ _ _ (by decide)]
            rw [alookup_cons_ne _ _ _ _ (by decide)]
            rw [alookup_cons_ne _ _ _ _ (by decide)]
            rw [alookup_cons_ne _ _ _ _ (by decide)]
            rw [alookup_cons_self]
            decide
          ·
            simp only [rget]
            rw [alookup_cons_ne _ _ _ _ (by decide)]
            rw [alookup_cons_ne _ _ _ _ (by decide)]
            rw [alookup_cons_ne _ _ _ _ (by decide)]
            rw [alookup_cons_ne _ _ _ _ (by decide)]
            rw [alookup_cons_ne _ _ _ _ (by decide)]
            rw [alookup_cons_ne _ _ _ _ (by decide)]
            rw [alookup_cons_self]
            decide
        · intro hv
          rw [hv]
          simp only [rget]
          rw [alookup_cons_ne _ _ _ _ (by decide)]
          rw [alookup_cons_ne _ _ _ _ (by decide)]
          rw [alookup_cons_ne _ _ _ _ (by decide)]
          rw [alookup_cons_ne _ _ _ _ (by decide)]
          rw [alookup_cons_ne _ _ _ _ (by decide)]
          rw [alookup_cons_ne _ _ _ _ (by decide)]
          rw [alookup_cons_ne _ _ _ _ (by decide)]
          rw [alookup_cons_self]
          decide
        · intro hv
          rw [hv]
          simp only [rget]
          rw [alookup_cons_ne _ _ _ _ (by decide)]
          rw [alookup_cons_ne _ _ _ _ (by decide)]
          rw [alookup_cons_ne _ _ _ _ (by decide)]
          rw [alookup_cons_ne _ _ _ _ (by decide)]
          rw [alookup_cons_ne _ _ _ _ (by decide)]
          rw [alookup_cons_ne _ _ _ _ (by decide)]
          rw [alookup_cons_ne _ _ _ _ (by decide)]
          rw [alookup_cons_ne _ _ _ _ (by decide)]
          rw [alookup_cons_self]
          decide
        · intro hv
          rw [hv]
          simp only [rget]
          rw [alookup_cons_ne _ _ _ _ (by decide)]
          rw [alookup_cons_ne _ _ _ _ (by decide)]
          rw [alookup_cons_ne _ _ _ _ (by decide)]
          rw [alookup_cons_ne _ _ _ _ (by decide)]
          rw [alookup_cons_ne _ _ _ _ (by decide)]
          rw [alookup_cons_ne _ _ _ _ (by decide)]
          rw [alookup_cons_ne _ _ _ _ (by decide)]
          rw [alookup_cons_ne _ _ _ _ (by decide)]
          rw [alookup_cons_ne _ _ _ _ (by decide)]
          rw [alookup_cons_self]
          decide
        · intro hv
          rw [hv]
          simp only [rget]
          rw [alookup_cons_ne _ _ _ _ (by decide)]
          rw [alookup_cons_ne _ _ _ _ (by decide)]
          rw [alookup_cons_ne _ _ _ _ (by decide)]
          rw [alookup_cons_ne _ _ _ _ (by decide)]
          rw [alookup_cons_ne _ _ _ _ (by decide)]
          rw [alookup_cons_ne _ _ _ _ (by decide)]
          rw [alookup_cons_ne _ _ _ _ (by decide)]
          rw [alookup_cons_ne _ _ _ _ (by decide)]
          rw [alookup_cons_ne _ _ _ _ (by decide)]
          rw [alookup_cons_ne _ _ _ _ (by decide)]
          rw [alookup_cons_self]
          decide
        · intro hv
          rw [hv]
          constructor
          ·
            simp only [rget]
            rw [alookup_cons_ne _ _ _ _ (by decide)]
            rw [alookup_cons_ne _ _ _ _ (by decide)]
            rw [alookup_cons_ne _ _ _ _ (by decide)]
            rw [alookup_cons_ne _ _ _ _ (by decide)]
            rw [alookup_cons_ne _ _ _ _ (by decide)]
            rw [alookup_cons_ne _ _ _ _ (by decide)]
            rw [alookup_cons_ne _ _ _ _ (by decide)]
            rw [alookup_cons_ne _ _ _ _ (by decide)]
            rw [alookup_cons_ne _ _ _ _ (by decide)]
            rw [alookup_cons_ne _ _ _ _ (by decide)]
            rw [alookup_cons_ne _ _ _ _ (by decide)]
            rw [alookup_cons_self]
            decide
          ·
            simp only [rget]
            rw [alookup_cons_ne _ _ _ _ (by decide)]
            rw [alookup_cons_ne _ _ _ _ (by decide)]
            rw [alookup_cons_ne _ _ _ _ (by decide)]
            rw [alookup_cons_ne _ _ _ _ (by decide)]
            rw [alookup_cons_ne _ _ _ _ (by decide)]
            rw [alookup_cons_ne _ _ _ _ (by decide)]
            rw [alookup_cons_ne _ _ _ _ (by decide)]
            rw [alookup_cons_ne _ _ _ _ (by decide)]
            rw [alookup_cons_ne _ _ _ _ (by decide)]
            rw [alookup_cons_ne _ _ _ _ (by decide)]
            rw [alookup_cons_ne _ _ _ _ (by decide)]
            rw [alookup_cons_ne _ _ _ _ (by decide)]
            rw [alookup_cons_self]
            decide
      · exact absurd h (by simp)
    · exact absurd h (by simp)
  · intro v h
    unfold splitTotalReduction
    simp [h]
  · intro a b ha hb
    have hopen : containsChar (a ++ '(' :: (b ++ [ ')' ])) '(' = true := by
      simp [containsChar]
    have hclose : containsChar (a ++ '(' :: (b ++ [ ')' ])) ')' = true := by
      simp [containsChar]
    have hsplit : splitOnChar '(' (a ++ '(' :: (b ++ [ ')' ])) =
        a :: [b ++ [ ')' ]] := by
      rw [splitOnChar_mid ha]
      rw [splitOnChar_no_sep]
      intro x hx
      rcases List.mem_append.mp hx with hx1 | hx1
      · exact (hb x hx1).1
      · simp at hx1
        rw [hx1]
        decide
    unfold splitTotalReduction
    rw [if_pos (by simp [hopen, hclose]), hsplit]
    dsimp only [List.headD, List.get?, Option.getD]
    rw [rstrip_append_close (fun x hx => (hb x hx).2)]

/-- C4 witness: a usage row keeps its dash cell, a metric-compression row
keeps its dash cell, a volume-compression row sentinels dashes in the
plain and the combined cells, and the two split behaviours at concrete
values. -/
theorem c4_cells_amended_witness :
    rget [(chars r"Resource", chars r"/data/col1"), (chars r"Size_GiB", chars r"-"),
        (chars r"Used_GiB", chars r"50"), (chars r"Avail_GiB", chars r"50"),
        (chars r"Use_Percent", chars r"50%"), (chars r"Cleanable_GiB", chars r"10")]
      (chars r"Size_GiB") = some (chars r"-") ∧
    ((∃ k : Nat,
      rget [(chars r"Metric", chars r"Total"), (chars r"Pre_Comp_GiB", chars r"-"),
          (chars r"Post_Comp_GiB", chars r"2.0"), (chars r"Global_Comp_Factor", chars r"3.0x"),
          (chars r"Local_Comp_Factor", chars r"4.0x"), (chars r"Total_Comp_Factor", chars r"5.0x")]
        (chars r"Pre_Comp_GiB") =
        some (vget ((splitWs (cleanLine (chars r"Total  -  2.0  3.0x  4.0x  5.0x"))).drop k) 0) ∧
      rget [(chars r"Metric", chars r"Total"), (chars r"Pre_Comp_GiB", chars r"-"),
          (chars r"Post_Comp_GiB", chars r"2.0"), (chars r"Global_Comp_Factor", chars r"3.0x"),
          (chars r"Local_Comp_Factor", chars r"4.0x"), (chars r"Total_Comp_Factor", chars r"5.0x")]
        (chars r"Post_Comp_GiB") =
        some (vget ((splitWs (cleanLine (chars r"Total  -  2.0  3.0x  4.0x  5.0x"))).drop k) 1) ∧
      rget [(chars r"Metric", chars r"Total"), (chars r"Pre_Comp_GiB", chars r"-"),
          (chars r"Post_Comp_GiB", chars r"2.0"), (chars r"Global_Comp_Factor", chars r"3.0x"),
          (chars r"Local_Comp_Factor", chars r"4.0x"), (chars r"Total_Comp_Factor", chars r"5.0x")]
        (chars r"Global_Comp_Factor") =
        some (vget ((splitWs (cleanLine (chars r"Total  -  2.0  3.0x  4.0x  5.0x"))).drop k) 2) ∧
      rget [(chars r"Metric", chars r"Total"), (chars r"Pre_Comp_GiB", chars r"-"),
          (chars r"Post_Comp_GiB", chars r"2.0"), (chars r"Global_Comp_Factor", chars r"3.0x"),
          (chars r"Local_Comp_Factor", chars r"4.0x"), (chars r"Total_Comp_Factor", chars r"5.0x")]
        (chars r"Local_Comp_Factor") =
        some (vget ((splitWs (cleanLine (chars r"Total  -  2.0  3.0x  4.0x  5.0x"))).drop k) 3) ∧
      rget [(chars r"Metric", chars r"Total"), (chars r"Pre_Comp_GiB", chars r"-"),
          (chars r"Post_Comp_GiB", chars r"2.0"), (chars r"Global_Comp_Factor", chars r"3.0x"),
          (chars r"Local_Comp_Factor", chars r"4.0x"), (chars r"Total_Comp_Factor", chars r"5.0x")]
        (chars r"Total_Comp_Factor") =
        some (vget ((splitWs (cleanLine (chars r"Total  -  2.0  3.0x  4.0x  5.0x"))).drop k) 4)) ∧
     rget [(chars r"Metric", chars r"Total"), (chars r"Pre_Comp_GiB", chars r"-"),
          (chars r"Post_Comp_GiB", chars r"2.0"), (chars r"Global_Comp_Factor", chars r"3.0x"),
          (chars r"Local_Comp_Factor", chars r"4.0x"), (chars r"Total_Comp_Factor", chars r"5.0x")]
        (chars r"Pre_Comp_GiB") = some (chars r"-")) ∧
    (rget [(chars r"Mtree", chars r"/data/col1/backup"),
        (chars r"Pre_24hrs_GiB", chars r"N/A"), (chars r"Post_24hrs_GiB", chars r"100.0"),
        (chars r"Global_24hrs", chars r"2.0x"), (chars r"Local_24hrs", chars r"1.5x"),
        (chars r"Total_24hrs", chars r"N/A"), (chars r"Reduction_24hrs_Percent", chars r"N/A"),
        (chars r"Pre_7days_GiB", chars r"5.0"), (chars r"Post_7days_GiB", chars r"90.0"),
        (chars r"Global_7days", chars r"2.0x"), (chars r"Local_7days", chars r"1.5x"),
        (chars r"Total_7days", chars r"N/A"), (chars r"Reduction_7days_Percent", chars r"N/A")]
      (chars r"Pre_24hrs_GiB") = some (chars r"N/A") ∧
     rget [(chars r"Mtree", chars r"/data/col1/backup"),
        (chars r"Pre_24hrs_GiB", chars r"N/A"), (chars r"Post_24hrs_GiB", chars r"100.0"),
        (chars r"Global_24hrs", chars r"2.0x"), (chars r"Local_24hrs", chars r"1.5x"),
        (chars r"Total_24hrs", chars r"N/A"), (chars r"Reduction_24hrs_Percent", chars r"N/A"),
        (chars r"Pre_7days_GiB", chars r"5.0"), (chars r"Post_7days_GiB", chars r"90.0"),
        (chars r"Global_7days", chars r"2.0x"), (chars r"Local_7days", chars r"1.5x"),
        (chars r"Total_7days", chars r"N/A"), (chars r"Reduction_7days_Percent", chars r"N/A")]
      (chars r"Total_24hrs") = some (chars r"N/A") ∧
     rget [(chars r"Mtree", chars r"/data/col1/backup"),
        (chars r"Pre_24hrs_GiB", chars r"N/A"), (chars r"Post_24hrs_GiB", chars r"100.0"),
        (chars r"Global_24hrs", chars r"2.0x"), (chars r"Local_24hrs", chars r"1.5x"),
        (chars r"Total_24hrs", chars r"N/A"), (chars r"Reduction_24hrs_Percent", chars r"N/A"),
        (chars r"Pre_7days_GiB", chars r"5.0"), (chars r"Post_7days_GiB", chars r"90.0"),
        (chars r"Global_7days", chars r"2.0x"), (chars r"Local_7days", chars r"1.5x"),
        (chars r"Total_7days", chars r"N/A"), (chars r"Reduction_7days_Percent", chars r"N/A")]
      (chars r"Reduction_24hrs_Percent") = some (chars r"N/A")) ∧
    splitTotalReduction (chars r"77") = (chars r"77", chars r"N/A") ∧
    splitTotalReduction (chars r"300.0" ++ '(' :: (chars r"50.0" ++ [ ')' ])) =
      (chars r"300.0", chars r"50.0") := by
  refine ⟨?_, ⟨?_, ?_⟩, ?_, ?_, ?_⟩
  · exact (c4_cells_amended.1 (chars r"/data/col1        -  50  50  50%  10") _
      (by decide)).2.1.trans (by decide)
  · exact c4_cells_amended.2.1 (chars r"Total  -  2.0  3.0x  4.0x  5.0x") _ (by decide)
  · decide
  · have h := c4_cells_amended.2.2.1
      (chars r"/data/col1/backup    -  100.0  2.0x  1.5x  -  5.0  90.0  2.0x  1.5x  -")
      [(chars r"Mtree", chars r"/data/col1/backup"),
        (chars r"Pre_24hrs_GiB", chars r"N/A"), (chars r"Post_24hrs_GiB", chars r"100.0"),
        (chars r"Global_24hrs", chars r"2.0x"), (chars r"Local_24hrs", chars r"1.5x"),
        (chars r"Total_24hrs", chars r"N/A"), (chars r"Reduction_24hrs_Percent", chars r"N/A"),
        (chars r"Pre_7days_GiB", chars r"5.0"), (chars r"Post_7days_GiB", chars r"90.0"),
        (chars r"Global_7days", chars r"2.0x"), (chars r"Local_7days", chars r"1.5x"),
        (chars r"Total_7days", chars r"N/A"), (chars r"Reduction_7days_Percent", chars r"N/A")]
      (chars r"/data/col1/backup", chars r"-  100.0  2.0x  1.5x  -  5.0  90.0  2.0x  1.5x  -")
      (by decide) (by decide)
    exact ⟨h.1 (by decide), (h.2.2.2.2.1 (by decide)).1, (h.2.2.2.2.1 (by decide)).2⟩
  · exact c4_cells_amended.2.2.2.1 (chars r"77") (by decide)
  · exact c4_cells_amended.2.2.2.2 (chars r"300.0") (chars r"50.0") (by decide) (by decide)

/-- C5: a decoded volume-list row takes its four retention fields from the
exact-key lookup in the parsed retention-lock table, its three replication
fields from the replication table, and a miss in either table yields the
all-sentinel defaults; the key is the raw first column string, compared by
plain equality. -/
theorem c5_crossref (content : Str) (rep : List (Str × ReplData)) (line : Str) (row : Row)
    (h : mtreeListDecode (parseMtreeRetentionLocks content) rep line = some row) :
    (∀ e : RetInfo, alookup (parseMtreeRetentionLocks content)
        (trim ((split2ws (cleanLine line)).headD [])) = some e →
      rget row (chars r"Retention_Lock") = some e.retentionLock ∧
      rget row (chars r"Lock_Mode") = some e.lockMode ∧
      rget row (chars r"Min_Retention_Period") = some e.minRet ∧
      rget row (chars r"Max_Retention_Period") = some e.maxRet)
    ∧ (alookup (parseMtreeRetentionLocks content)
        (trim ((split2ws (cleanLine line)).headD [])) = none →
      rget row (chars r"Retention_Lock") = some (chars r"N/A") ∧
      rget row (chars r"Lock_Mode") = some (chars r"N/A") ∧
      rget row (chars r"Min_Retention_Period") = some (chars r"N/A") ∧
      rget row (chars r"Max_Retention_Period") = some (chars r"N/A"))
    ∧ (alookup rep (trim ((split2ws (cleanLine line)).headD [])) = none →
      rget row (chars r"Replication_Mode") = some (chars r"N/A") ∧
      rget row (chars r"Replication_Host") = some (chars r"N/A") ∧
      rget row (chars r"Replication_Enabled") = some (chars r"N/A")) := by
  unfold mtreeListDecode at h
  dsimp only at h
  split at h
  · injection h with h
    subst h
    refine ⟨?_, ?_, ?_⟩
    · intro e he
      rw [he]
      exact ⟨rfl, rfl, rfl, rfl⟩
    · intro he
      rw [he]
      exact ⟨rfl, rfl, rfl, rfl⟩
    · intro he
      rw [he]
      exact ⟨rfl, rfl, rfl⟩
  · exact absurd h (by simp)

/-- C5 witness: the volume list row for /data/col1/vol1 picks up the
retention-lock entry parsed from the concrete retention section, and the
replication miss yields sentinels. -/
theorem c5_crossref_witness :
    rget [(chars r"Name", chars r"/data/col1/vol1"), (chars r"Pre_Comp_GiB", chars r"100.0"),
        (chars r"Status", chars r"RW"), (chars r"Retention_Lock", chars r"enabled"),
        (chars r"Lock_Mode", chars r"compliance"),
        (chars r"Min_Retention_Period", chars r"N/A"),
        (chars r"Max_Retention_Period", chars r"N/A"),
        (chars r"Replication_Mode", chars r"N/A"),
        (chars r"Replication_Host", chars r"N/A"),
        (chars r"Replication_Enabled", chars r"N/A")]
      (chars r"Retention_Lock") = some (chars r"enabled") ∧
    rget [(chars r"Name", chars r"/data/col1/vol1"), (chars r"Pre_Comp_GiB", chars r"100.0"),
        (chars r"Status", chars r"RW"), (chars r"Retention_Lock", chars r"enabled"),
        (chars r"Lock_Mode", chars r"compliance"),
        (chars r"Min_Retention_Period", chars r"N/A"),
        (chars r"Max_Retention_Period", chars r"N/A"),
        (chars r"Replication_Mode", chars r"N/A"),
        (chars r"Replication_Host", chars r"N/A"),
        (chars r"Replication_Enabled", chars r"N/A")]
      (chars r"Replication_Mode") = some (chars r"N/A") := by
  have h := c5_crossref docRetLock [] (chars r"/data/col1/vol1            100.0   RW")
    [(chars r"Name", chars r"/data/col1/vol1"), (chars r"Pre_Comp_GiB", chars r"100.0"),
      (chars r"Status", chars r"RW"), (chars r"Retention_Lock", chars r"enabled"),
      (chars r"Lock_Mode", chars r"compliance"),
      (chars r"Min_Retention_Period", chars r"N/A"),
      (chars r"Max_Retention_Period", chars r"N/A"),
      (chars r"Replication_Mode", chars r"N/A"),
      (chars r"Replication_Host", chars r"N/A"),
      (chars r"Replication_Enabled", chars r"N/A")]
    (by decide)
  constructor
  · exact (h.1 ⟨chars r"enabled", chars r"compliance", chars r"N/A", chars r"N/A"⟩
      (by decide)).1
  · exact (h.2.2 (by decide)).1

/-- C9: for the Mtree List decoder (minimum three delimiter-run fields) and
the usage decoder (minimum 18-character width), a section with one
well-formed row and one row below the minimum decodes to exactly the
well-formed row, in either order, with no failure. -/
theorem c9_malformed_row (rl : List (Str × RetInfo)) (rep : List (Str × ReplData)) :
    (∀ (g b : Str) (row : Row),
      tableLineStep (chars r"Mtree List") rl rep g = some row →
      (split2ws (cleanLine b)).length < 3 →
      decodeTableLines (chars r"Mtree List") rl rep [g, b] = [row] ∧
      decodeTableLines (chars r"Mtree List") rl rep [b, g] = [row])
    ∧ (∀ (g b : Str) (row : Row),
      tableLineStep (chars r"Active Tier Usage") rl rep g = some row →
      (cleanLine b).length ≤ 18 →
      decodeTableLines (chars r"Active Tier Usage") rl rep [g, b] = [row] ∧
      decodeTableLines (chars r"Active Tier Usage") rl rep [b, g] = [row]) := by
  constructor
  · intro g b row hg hb
    have hbn := @mtreeList_step_short rl rep b hb
    constructor
    · simp [decodeTableLines, List.filterMap_cons, hg, hbn]
    · simp [decodeTableLines, List.filterMap_cons, hg, hbn]
  · intro g b row hg hb
    have hbn := @usage_step_short rl rep b hb
    constructor
    · simp [decodeTableLines, List.filterMap_cons, hg, hbn]
    · simp [decodeTableLines, List.filterMap_cons, hg, hbn]

/-- C9 witness: concrete well-formed and short rows for both decoders. -/
theorem c9_malformed_row_witness :
    decodeTableLines (chars r"Mtree List") [] []
      [chars r"/data/col1/vol1    10.5   RW", chars r"/data/col1/x"] =
      [[(chars r"Name", chars r"/data/col1/vol1"), (chars r"Pre_Comp_GiB", chars r"10.5"),
        (chars r"Status", chars r"RW"), (chars r"Retention_Lock", chars r"N/A"),
        (chars r"Lock_Mode", chars r"N/A"), (chars r"Min_Retention_Period", chars r"N/A"),
        (chars r"Max_Retention_Period", chars r"N/A"), (chars r"Replication_Mode", chars r"N/A"),
        (chars r"Replication_Host", chars r"N/A"), (chars r"Replication_Enabled", chars r"N/A")]] ∧
    decodeTableLines (chars r"Active Tier Usage") [] []
      [chars r"/data/col1: pre", chars r"/data/col1        100  50  50  50%  10"] =
      [[(chars r"Resource", chars r"/data/col1"), (chars r"Size_GiB", chars r"100"),
        (chars r"Used_GiB", chars r"50"), (chars r"Avail_GiB", chars r"50"),
        (chars r"Use_Percent", chars r"50%"), (chars r"Cleanable_GiB", chars r"10")]] := by
  constructor
  · exact ((c9_malformed_row [] []).1 (chars r"/data/col1/vol1    10.5   RW")
      (chars r"/data/col1/x") _ (by decide) (by decide)).1
  · exact ((c9_malformed_row [] []).2 (chars r"/data/col1        100  50  50  50%  10")
      (chars r"/data/col1: pre") _ (by decide) (by decide)).2

/-- C1 counterexample: on the round-trip document with the usage row
written exactly as the claim gives it, the 18-character fixed-width slice
absorbs part of the size column, so the decoded row is not the claimed
one: the resource cell is the first 18 characters of the row and the
remaining cells shift. -/
theorem c1_counterexample :
    tableRowsOf (parseAutosupportFile (some docNarrow) (chars r"autosupport") (chars r"a.tar.gz"))
      (chars r"Active Tier Usage") =
      some (TVal.rs [[(chars r"Resource", chars r"/data/col1  100  5"),
        (chars r"Size_GiB", chars r"0"), (chars r"Used_GiB", chars r"50"),
        (chars r"Avail_GiB", chars r"50%"), (chars r"Use_Percent", chars r"10"),
        (chars r"Cleanable_GiB", chars r"N/A")]]) ∧
    ¬ tableRowsOf (parseAutosupportFile (some docNarrow) (chars r"autosupport") (chars r"a.tar.gz"))
      (chars r"Active Tier Usage") =
      some (TVal.rs [[(chars r"Resource", chars r"/data/col1"),
        (chars r"Size_GiB", chars r"100"), (chars r"Used_GiB", chars r"50"),
        (chars r"Avail_GiB", chars r"50"), (chars r"Use_Percent", chars r"50%"),
        (chars r"Cleanable_GiB", chars r"10")]]) := by
  have h1 : tableRowsOf (parseAutosupportFile (some docNarrow) (chars r"autosupport") (chars r"a.tar.gz"))
      (chars r"Active Tier Usage") =
      some (TVal.rs [[(chars r"Resource", chars r"/data/col1  100  5"),
        (chars r"Size_GiB", chars r"0"), (chars r"Used_GiB", chars r"50"),
        (chars r"Avail_GiB", chars r"50%"), (chars r"Use_Percent", chars r"10"),
        (chars r"Cleanable_GiB", chars r"N/A")]]) := by decide
  refine ⟨h1, ?_⟩
  intro habs
  rw [h1] at habs
  exact absurd habs (by decide)

/-- C1 amended: on the round-trip document with the usage row laid out in
the report's fixed-width columns (resource cell padded to the 18-character
slice), the record holds GENERATED_ON and HOSTNAME verbatim, a cloud-tier
status of Unknown or Disabled, exactly the claimed usage row, and empty
cloud-profile and cloud-movement sequences. -/
theorem c1_roundtrip_amended :
    alookup (parseAutosupportFile (some docPadded) (chars r"autosupport") (chars r"a.tar.gz"))
      (chars r"GENERATED_ON") = some (Val.vs (chars r"Fri Oct 17 06:03:20 EDT 2025")) ∧
    alookup (parseAutosupportFile (some docPadded) (chars r"autosupport") (chars r"a.tar.gz"))
      (chars r"HOSTNAME") = some (Val.vs (chars r"host1.example.com")) ∧
    (alookup (parseAutosupportFile (some docPadded) (chars r"autosupport") (chars r"a.tar.gz"))
      (chars r"CLOUD_TIER") = some (Val.vs (chars r"Unknown")) ∨
     alookup (parseAutosupportFile (some docPadded) (chars r"autosupport") (chars r"a.tar.gz"))
      (chars r"CLOUD_TIER") = some (Val.vs (chars r"Disabled"))) ∧
    tableRowsOf (parseAutosupportFile (some docPadded) (chars r"autosupport") (chars r"a.tar.gz"))
      (chars r"Active Tier Usage") =
      some (TVal.rs [[(chars r"Resource", chars r"/data/col1"),
        (chars r"Size_GiB", chars r"100"), (chars r"Used_GiB", chars r"50"),
        (chars r"Avail_GiB", chars r"50"), (chars r"Use_Percent", chars r"50%"),
        (chars r"Cleanable_GiB", chars r"10")]]) ∧
    alookup (parseAutosupportFile (some docPadded) (chars r"autosupport") (chars r"a.tar.gz"))
      (chars r"CLOUD_PROFILES") = some (Val.vrows []) ∧
    alookup (parseAutosupportFile (some docPadded) (chars r"autosupport") (chars r"a.tar.gz"))
      (chars r"CLOUD_DATA_MOVEMENT") = some (Val.vrows []) := by
  have hg : cloudEnabled (baseRecord docPadded) = false := by
    rw [cloudEnabled_status]
    decide
  refine ⟨?_, ?_, Or.inl ?_, ?_, ?_, ?_⟩
  · show alookup (parseAutosupportContent docPadded (chars r"autosupport") (chars r"a.tar.gz")) _ = _
    rw [lookup_parse_base _ _ _ _ (by decide) (by decide) (by decide) (by decide),
      alookup_base_GENERATED_ON]
    decide
  · show alookup (parseAutosupportContent docPadded (chars r"autosupport") (chars r"a.tar.gz")) _ = _
    rw [lookup_parse_base _ _ _ _ (by decide) (by decide) (by decide) (by decide),
      alookup_base_HOSTNAME]
    decide
  · show alookup (parseAutosupportContent docPadded (chars r"autosupport") (chars r"a.tar.gz")) _ = _
    rw [lookup_parse_base _ _ _ _ (by decide) (by decide) (by decide) (by decide),
      alookup_base_CLOUD_TIER]
    decide
  · decide
  · exact lookup_parse_CP_false docPadded (chars r"autosupport") (chars r"a.tar.gz") hg
  · exact lookup_parse_CDM_false docPadded (chars r"autosupport") (chars r"a.tar.gz") hg
